import Mathlib

/-!
# 3D digital card: pointer interaction

A shallow embedding of the pointer-interaction layer of
`src/cards/3d-digital-card/main.js`: the element maps of the two card faces,
the bounding-box helpers `getTextBBox` and `getLogoBBox`, the element-map part
of `updateCardTextures`, and the three pointer handlers (`pointerdown`,
`pointermove`, `pointerup`) as functions on an explicit state.

Modelling conventions.

* JavaScript numbers are binary64 doubles. A finite double is a rational, so
  values have type `ℚ`; every arithmetic operation of the source is the exact
  operation followed by `fl`, rounding to the nearest double with ties to even
  (`fadd`, `fsub`, `fmul`, `fdiv`). A numeric literal such as `0.01` is
  `fl (1 / 100)`. Subnormal results are rounded on the fixed grid `2 ^ (-1074)`;
  overflow to an infinity, NaN and the sign of zero are not modelled (the
  exponent range is unbounded above).
* Polygon indices are naturals.
* The ray caster is external: every pointer event carries the list of
  intersections that `raycaster.intersectObject(card)` returned for it
  (nearest first), each with its `faceIndex` and `uv`.
* `ctx.measureText` is external: every face carries a measurer mapping a font
  and a string to its metrics.
* An element object is a record whose absent properties are `none`; an element
  map is the list of its entries in own-property order (for the string keys of
  the card this is insertion order), and `elements[key]` is `List.lookup`.
* `draggedElement.data` is a reference to the object stored under
  `cardElements[side].elements[key]`; the model keeps `side` and `key` and
  resolves the reference through the map.
* Canvas drawing and texture upload are not modelled.
-/

namespace DigitalCard

/-! ## Double arithmetic -/

/-- Rounding of a rational to the nearest integer, ties to the even one. -/
def roundHalfEven (t : ℚ) : ℤ :=
  let f := ⌊t⌋
  if t - f < 1 / 2 then f
  else if 1 / 2 < t - f then f + 1
  else if f % 2 = 0 then f else f + 1

/-- Rounding of an exact result to the nearest binary64 double, ties to even:
the result is an integer multiple of `2 ^ e`, where `e` is 52 below the binary
exponent of the argument (the exponent being at least `-1022`), so that normal
results have a 53-bit significand. -/
def fl (q : ℚ) : ℚ :=
  if q = 0 then 0
  else
    let e : ℤ := max (Int.log 2 |q|) (-1022) - 52
    (roundHalfEven (q / 2 ^ e) : ℚ) * 2 ^ e

/-- The operator `+` on doubles. -/
def fadd (a b : ℚ) : ℚ := fl (a + b)

/-- The operator `-` on doubles. -/
def fsub (a b : ℚ) : ℚ := fl (a - b)

/-- The operator `*` on doubles. -/
def fmul (a b : ℚ) : ℚ := fl (a * b)

/-- The operator `/` on doubles (for a non-zero divisor). -/
def fdiv (a b : ℚ) : ℚ := fl (a / b)

/-! ## Data model -/

/-- Line 19. -/
def canvasWidth : ℚ := 1024

/-- Line 20. -/
def canvasHeight : ℚ := 512

/-- A loaded image object; only its identity matters. -/
structure Image where
  id : Nat
deriving DecidableEq, Repr

/-- The two keys of `cardElements`. -/
inductive Side where
  | front
  | back
deriving DecidableEq, Repr

/-- The fields of `TextMetrics` that the program reads. -/
structure TextMetrics where
  width : ℚ
  actualBoundingBoxAscent : ℚ
  actualBoundingBoxDescent : ℚ
deriving DecidableEq, Repr

/-- A 2D drawing context, reduced to `measureText` under a given font. -/
structure Ctx where
  measureText : (font : String) → (text : String) → TextMetrics

/-- An element object of lines 44-54. `text = none` and `img = none` stand for
an absent property, `img = some none` for `img: null`. -/
structure ElementData where
  text : Option String := none
  img : Option (Option Image) := none
  x : ℚ
  y : ℚ
  font : String := ""
  align : Option String := none
  width : ℚ := 0
  height : ℚ := 0
deriving DecidableEq, Repr

/-- The object literal returned by the two bounding-box helpers. -/
structure BBox where
  x : ℚ
  y : ℚ
  width : ℚ
  height : ℚ
deriving DecidableEq, Repr

/-- An element map: entries in own-property order. -/
abbrev Elements := List (String × ElementData)

/-- One entry of `cardElements` (the texture is not modelled). -/
structure CanvasState where
  ctx : Ctx
  elements : Elements

/-- The object `cardElements` of lines 39-57. -/
structure CardElements where
  front : CanvasState
  back : CanvasState

/-- The expression `cardElements[sideKey]`. -/
def CardElements.get (c : CardElements) : Side → CanvasState
  | Side.front => c.front
  | Side.back => c.back

/-- A `THREE.Vector2`. -/
structure Vector2 where
  x : ℚ
  y : ℚ
deriving DecidableEq, Repr

/-- One entry of the ray caster result, reduced to what the handlers read. -/
structure Intersection where
  faceIndex : Nat
  uv : Vector2
deriving DecidableEq, Repr

/-- A pointer event together with the ray caster result for it. -/
structure PointerEvent where
  clientX : ℚ
  intersects : List Intersection
deriving DecidableEq, Repr

/-- The object stored in `draggedElement` (line 231); `data` is resolved
through `side` and `key`. -/
structure DraggedElement where
  side : Side
  key : String
deriving DecidableEq, Repr

/-- Current values of the form inputs read by `updateCardTextures`. -/
structure FormValues where
  name : String
  title : String
  contact : String
  slogan : String
deriving DecidableEq, Repr

/-- Module state: the element maps, the shared logo image, the form inputs, the
drag and rotation variables of lines 179-184 and `card.rotation.y`. -/
structure State where
  cardElements : CardElements
  logoImage : Option Image
  form : FormValues
  draggedElement : Option DraggedElement
  dragOffset : Vector2
  currentCanvasState : Option Side
  isCardDragging : Bool
  previousMouseX : ℚ
  rotationY : ℚ

/-! ## Bounding boxes (lines 60-81) -/

/-- The expression `elementData.align || 'left'`: an absent or empty alignment
is falsy. -/
def alignOf (elementData : ElementData) : String :=
  match elementData.align with
  | none => "left"
  | some a => if a = "" then "left" else a

/-- Lines 60-76. -/
def getTextBBox (elementData : ElementData) (ctx : Ctx) : BBox :=
  let metrics := ctx.measureText elementData.font (elementData.text.getD "undefined")
  let align := alignOf elementData
  let x :=
    if align = "center" then fsub elementData.x (fdiv metrics.width 2)
    else if align = "right" then fsub elementData.x metrics.width
    else elementData.x
  { x := x
    y := fsub elementData.y metrics.actualBoundingBoxAscent
    width := metrics.width
    height := fadd metrics.actualBoundingBoxAscent metrics.actualBoundingBoxDescent }

/-- Lines 79-81. -/
def getLogoBBox (elementData : ElementData) : BBox :=
  { x := elementData.x, y := elementData.y,
    width := elementData.width, height := elementData.height }

/-- Lines 219-226: the element kind dispatch of the hit-test loop; `none` is
the `continue` branch. -/
def bboxOf (el : ElementData) (currentCtx : Ctx) : Option BBox :=
  if el.text.isSome then some (getTextBBox el currentCtx)
  else
    match el.img with
    | some (some _) => some (getLogoBBox el)
    | _ => none

/-- Lines 228-229: the containment test. -/
def inBBox (canvasX canvasY : ℚ) (bbox : BBox) : Bool :=
  decide (canvasX ≥ bbox.x) && decide (canvasX ≤ fadd bbox.x bbox.width) &&
  decide (canvasY ≥ bbox.y) && decide (canvasY ≤ fadd bbox.y bbox.height)

/-! ## Element-map updates -/

/-- Assignment to properties of the object stored under `key`. -/
def modifyEl (key : String) (f : ElementData → ElementData) : Elements → Elements
  | [] => []
  | (k, el) :: rest =>
    if k = key then (k, f el) :: rest else (k, el) :: modifyEl key f rest

/-- Lines 84-131, element maps only: the texts are re-read from the form and
the logo element receives the shared image (or `null`). The five keys it
addresses are present in every state of the program; a map lacking one (where
the script would throw) is left as it is. -/
def updateCardTextures (s : State) : State :=
  let frontEls :=
    modifyEl "contact" (fun el => { el with text := some s.form.contact })
      (modifyEl "title" (fun el => { el with text := some s.form.title })
        (modifyEl "name" (fun el => { el with text := some s.form.name })
          s.cardElements.front.elements))
  let backEls :=
    modifyEl "logo" (fun el => { el with img := some s.logoImage })
      (modifyEl "slogan" (fun el => { el with text := some s.form.slogan })
        s.cardElements.back.elements)
  { s with
    cardElements :=
      { front := { s.cardElements.front with elements := frontEls }
        back := { s.cardElements.back with elements := backEls } } }

/-- Replace the element map of one side. -/
def CardElements.setElements (c : CardElements) (side : Side) (els : Elements) :
    CardElements :=
  match side with
  | Side.front => { c with front := { c.front with elements := els } }
  | Side.back => { c with back := { c.back with elements := els } }

/-- Lines 262-263: the two assignments through `draggedElement.data`, the
object stored under `d.key` on `d.side`. -/
def setDraggedPosition (s : State) (d : DraggedElement) (x y : ℚ) : State :=
  { s with
    cardElements :=
      s.cardElements.setElements d.side
        (modifyEl d.key (fun el => { el with x := x, y := y })
          (s.cardElements.get d.side).elements) }

/-- The object `draggedElement.data` refers to. -/
def State.elementAt (s : State) (side : Side) (key : String) : Option ElementData :=
  (s.cardElements.get side).elements.lookup key

/-- The anchor of the element stored under a key. -/
def anchorOf (els : Elements) (key : String) : Option (ℚ × ℚ) :=
  (els.lookup key).map (fun el => (el.x, el.y))

/-- The anchor of the element under `key` on `side`. -/
def State.anchorAt (s : State) (side : Side) (key : String) : Option (ℚ × ℚ) :=
  anchorOf (s.cardElements.get side).elements key

/-! ## Picking (lines 194-213) -/

/-- Lines 198-204: the face classification. -/
def sideKey (faceIndex : Nat) : Option Side :=
  if faceIndex ≥ 8 ∧ faceIndex ≤ 9 then some Side.front
  else if faceIndex ≥ 10 ∧ faceIndex ≤ 11 then some Side.back
  else none

/-- Line 208 (and 258). -/
def canvasX (uv : Vector2) : ℚ := fmul uv.x canvasWidth

/-- Line 209 (and 259). -/
def canvasY (uv : Vector2) : ℚ := fmul (fsub 1 uv.y) canvasHeight

/-- Lines 194-209: the face and canvas point resolved by the pointer-down
handler from the ray caster result, if any. -/
def pickFace (intersects : List Intersection) : Option (Side × ℚ × ℚ) :=
  match intersects with
  | [] => none
  | intersection :: _ =>
    match sideKey intersection.faceIndex with
    | none => none
    | some side => some (side, canvasX intersection.uv, canvasY intersection.uv)

/-- Lines 216-238: the hit-test loop over the given keys; returns the key and
element of the first containing box. -/
def hitTest (currentCtx : Ctx) (elementsToCheck : Elements) (cx cy : ℚ) :
    List String → Option (String × ElementData)
  | [] => none
  | key :: rest =>
    match elementsToCheck.lookup key with
    | none => hitTest currentCtx elementsToCheck cx cy rest
    | some el =>
      match bboxOf el currentCtx with
      | none => hitTest currentCtx elementsToCheck cx cy rest
      | some bbox =>
        if inBBox cx cy bbox then some (key, el)
        else hitTest currentCtx elementsToCheck cx cy rest

/-- Whether the loop body of lines 219-229 accepts the element at the point. -/
def hits (currentCtx : Ctx) (cx cy : ℚ) (el : ElementData) : Bool :=
  match bboxOf el currentCtx with
  | some bbox => inBBox cx cy bbox
  | none => false

/-- The expression `Object.keys(elementsToCheck).reverse()`. -/
def reversedKeys (elementsToCheck : Elements) : List String :=
  (elementsToCheck.map Prod.fst).reverse

/-! ## Handlers (lines 186-278) -/

/-- Lines 242-244: the fall-through of the pointer-down handler. -/
def startRotation (s : State) (event : PointerEvent) : State :=
  { s with isCardDragging := true, previousMouseX := event.clientX }

/-- Lines 186-245. -/
def pointerdown (s : State) (event : PointerEvent) : State :=
  match pickFace event.intersects with
  | none => startRotation s event
  | some (side, cx, cy) =>
    let s1 := { s with currentCanvasState := some side }
    let currentCanvasState := s.cardElements.get side
    match hitTest currentCanvasState.ctx currentCanvasState.elements cx cy
        (reversedKeys currentCanvasState.elements) with
    | some (key, el) =>
      { s1 with
        draggedElement := some { side := side, key := key }
        dragOffset := { x := fsub cx el.x, y := fsub cy el.y }
        isCardDragging := false }
    | none => startRotation s1 event

/-- Lines 247-272. -/
def pointermove (s : State) (event : PointerEvent) : State :=
  match s.draggedElement with
  | some d =>
    match event.intersects with
    | [] => s
    | intersection :: _ =>
      updateCardTextures
        (setDraggedPosition s d (fsub (canvasX intersection.uv) s.dragOffset.x)
          (fsub (canvasY intersection.uv) s.dragOffset.y))
  | none =>
    if s.isCardDragging then
      let deltaX := fsub event.clientX s.previousMouseX
      { s with
        rotationY := fadd s.rotationY (fmul deltaX (fl (1 / 100)))
        previousMouseX := event.clientX }
    else s

/-- Lines 274-278. -/
def pointerup (s : State) : State :=
  { s with draggedElement := none, isCardDragging := false, currentCanvasState := none }

/-- The three pointer events of the canvas. -/
inductive Event where
  | pointerdown (event : PointerEvent)
  | pointermove (event : PointerEvent)
  | pointerup
deriving DecidableEq, Repr

/-- Dispatch of one event to its handler. -/
def step (s : State) : Event → State
  | Event.pointerdown event => pointerdown s event
  | Event.pointermove event => pointermove s event
  | Event.pointerup => pointerup s

/-- Handling a sequence of events in order. -/
def run (s : State) (events : List Event) : State :=
  events.foldl step s

/-- Module state after the top-level script has run (including the call of
`updateCardTextures` on line 301), for given drawing contexts and form values. -/
def initialState (ctxFront ctxBack : Ctx) (form : FormValues) : State :=
  updateCardTextures
    { cardElements :=
        { front :=
            { ctx := ctxFront
              elements :=
                [ ("name", { text := some "Aisha Nama", x := 50, y := 150,
                             font := "bold 64px Arial" }),
                  ("title", { text := some "AI & Data Science Enthusiast", x := 50, y := 240,
                              font := "48px Arial" }),
                  ("contact", { text := some "aisha.nama@email.com", x := 50, y := 320,
                                font := "40px Arial" }) ] }
          back :=
            { ctx := ctxBack
              elements :=
                [ ("slogan", { text := some "Let's build the future.", x := fdiv canvasWidth 2,
                               y := 200, font := "italic 54px Arial", align := some "center" }),
                  ("logo", { img := some none, x := fsub (fdiv canvasWidth 2) 100, y := 250,
                             width := 200, height := 200 }) ] } }
      logoImage := none
      form := form
      draggedElement := none
      dragOffset := { x := 0, y := 0 }
      currentCanvasState := none
      isCardDragging := false
      previousMouseX := 0
      rotationY := 0 }

/-- States reachable from an initial state by pointer events. -/
def Reachable (s : State) : Prop :=
  ∃ ctxFront ctxBack form events, s = run (initialState ctxFront ctxBack form) events

/-! ## Concrete fixtures -/

/-- A fixed-advance measurer: 20 pixels per character, ascent 30 and descent 8,
and an all-zero result for the empty string. -/
def monoCtx : Ctx :=
  { measureText := fun _ text =>
      if text = "" then { width := 0, actualBoundingBoxAscent := 0, actualBoundingBoxDescent := 0 }
      else { width := 20 * (text.length : ℚ), actualBoundingBoxAscent := 30,
             actualBoundingBoxDescent := 8 } }

/-- Form values equal to the texts of the source literals. -/
def defaultForm : FormValues :=
  { name := "Aisha Nama", title := "AI & Data Science Enthusiast",
    contact := "aisha.nama@email.com", slogan := "Let's build the future." }

/-- The initial state under the fixtures. -/
def sampleState : State := initialState monoCtx monoCtx defaultForm

/-- The sample state with an empty name field in the form. -/
def emptyNameState : State := initialState monoCtx monoCtx { defaultForm with name := "" }

/-- The name element of the sample state. -/
def nameElement : ElementData :=
  { text := some "Aisha Nama", x := 50, y := 150, font := "bold 64px Arial" }

/-- The title element of the sample state. -/
def titleElement : ElementData :=
  { text := some "AI & Data Science Enthusiast", x := 50, y := 240, font := "48px Arial" }

/-- The contact element of the sample state. -/
def contactElement : ElementData :=
  { text := some "aisha.nama@email.com", x := 50, y := 320, font := "40px Arial" }

/-- The name element when the name field of the form is empty. -/
def emptyNameElement : ElementData :=
  { text := some "", x := 50, y := 150, font := "bold 64px Arial" }

/-- The title element moved onto the name. -/
def movedTitleElement : ElementData :=
  { text := some "AI & Data Science Enthusiast", x := 50, y := 160, font := "48px Arial" }

/-- The logo element of the sample state: no image has been loaded. -/
def logoElement : ElementData :=
  { img := some none, x := 412, y := 250, width := 200, height := 200 }

/-- The sample state with the title moved onto the name. -/
def overlapState : State :=
  { sampleState with
    cardElements :=
      { sampleState.cardElements with
        front :=
          { ctx := monoCtx
            elements :=
              [("name", nameElement), ("title", movedTitleElement),
               ("contact", contactElement)] } } }

/-- The sample state after a pointer-down on polygon 8 at UV `(1/8, 3/4)`, the
canvas point `(128, 128)` inside the box of the name element. -/
def draggingState : State :=
  pointerdown sampleState
    { clientX := 0, intersects := [{ faceIndex := 8, uv := { x := 1 / 8, y := 3 / 4 } }] }

/-- The sample state after a pointer-down at device x 0 that misses the card
and a pointer-move to device x 10. -/
def rotatingState : State :=
  run sampleState
    [ Event.pointerdown { clientX := 0, intersects := [] },
      Event.pointermove { clientX := 10, intersects := [] } ]

/-! ## Lemmas on double arithmetic -/

theorem log_two_eq (a : ℚ) (k : ℤ) (ha : 0 < a) (h1 : (2 : ℚ) ^ k ≤ a)
    (h2 : a < (2 : ℚ) ^ (k + 1)) : Int.log 2 a = k := by
  have hb : 1 < (2 : ℕ) := by norm_num
  have h1' : k ≤ Int.log 2 a := (Int.zpow_le_iff_le_log hb ha).mp (by exact_mod_cast h1)
  have h2' : Int.log 2 a < k + 1 := (Int.lt_zpow_iff_log_lt hb ha).mp (by exact_mod_cast h2)
  omega

theorem roundHalfEven_eq (t : ℚ) (m : ℤ) (h1 : -(1 / 2) < t - m) (h2 : t - m < 1 / 2) :
    roundHalfEven t = m := by
  unfold roundHalfEven
  by_cases hge : (m : ℚ) ≤ t
  · have hf : ⌊t⌋ = m := by
      rw [Int.floor_eq_iff]
      constructor
      · exact hge
      · linarith
    simp only [hf]
    rw [if_pos h2]
  · have hf : ⌊t⌋ = m - 1 := by
      rw [Int.floor_eq_iff]
      push_cast
      constructor <;> linarith
    simp only [hf]
    push_cast
    rw [if_neg (by linarith), if_pos (by linarith)]
    ring

theorem fl_eq (q a : ℚ) (k m e : ℤ) (ha : |q| = a) (hpos : 0 < a)
    (h1 : (2 : ℚ) ^ k ≤ a) (h2 : a < (2 : ℚ) ^ (k + 1)) (he : max k (-1022) - 52 = e)
    (h3 : -(1 / 2) < q / 2 ^ e - m) (h4 : q / 2 ^ e - m < 1 / 2) :
    fl q = m * 2 ^ e := by
  have hq : q ≠ 0 := by
    intro h
    rw [h, abs_zero] at ha
    linarith
  unfold fl
  rw [if_neg hq]
  simp only [ha, log_two_eq a k hpos h1 h2, he]
  rw [roundHalfEven_eq _ m h3 h4]


theorem roundHalfEven_half (f : ℤ) :
    roundHalfEven ((f : ℚ) + 1 / 2) = if f % 2 = 0 then f else f + 1 := by
  unfold roundHalfEven
  have hf : ⌊(f : ℚ) + 1 / 2⌋ = f := by
    rw [Int.floor_eq_iff]
    constructor <;> linarith
  simp only [hf]
  rw [if_neg (by linarith), if_neg (by linarith)]

theorem fl_eq_tie (q a : ℚ) (k f m e : ℤ) (ha : |q| = a) (hpos : 0 < a)
    (h1 : (2 : ℚ) ^ k ≤ a) (h2 : a < (2 : ℚ) ^ (k + 1)) (he : max k (-1022) - 52 = e)
    (ht : q / 2 ^ e = (f : ℚ) + 1 / 2) (hm : (if f % 2 = 0 then f else f + 1) = m) :
    fl q = m * 2 ^ e := by
  have hq : q ≠ 0 := by
    intro h
    rw [h, abs_zero] at ha
    linarith
  unfold fl
  rw [if_neg hq]
  simp only [ha, log_two_eq a k hpos h1 h2, he]
  rw [ht, roundHalfEven_half, hm]

/-! ### The rounded operations at the values used below -/

theorem fsub_150_30 : fsub 150 30 = 120 := by
  have h := fl_eq (150 - 30) 120 6 8444249301319680 (-46) (by norm_num [abs_of_pos])
    (by norm_num) (by norm_num) (by norm_num) (by norm_num) (by norm_num) (by norm_num)
  rw [fsub, h]
  norm_num

theorem fadd_30_8 : fadd 30 8 = 38 := by
  have h := fl_eq (30 + 8) 38 5 5348024557502464 (-47) (by norm_num [abs_of_pos])
    (by norm_num) (by norm_num) (by norm_num) (by norm_num) (by norm_num) (by norm_num)
  rw [fadd, h]
  norm_num

theorem fadd_50_200 : fadd 50 200 = 250 := by
  have h := fl_eq (50 + 200) 250 7 8796093022208000 (-45) (by norm_num [abs_of_pos])
    (by norm_num) (by norm_num) (by norm_num) (by norm_num) (by norm_num) (by norm_num)
  rw [fadd, h]
  norm_num

theorem fadd_120_38 : fadd 120 38 = 158 := by
  have h := fl_eq (120 + 38) 158 7 5559130790035456 (-45) (by norm_num [abs_of_pos])
    (by norm_num) (by norm_num) (by norm_num) (by norm_num) (by norm_num) (by norm_num)
  rw [fadd, h]
  norm_num

theorem fsub_240_30 : fsub 240 30 = 210 := by
  have h := fl_eq (240 - 30) 210 7 7388718138654720 (-45) (by norm_num [abs_of_pos])
    (by norm_num) (by norm_num) (by norm_num) (by norm_num) (by norm_num) (by norm_num)
  rw [fsub, h]
  norm_num

theorem fadd_50_560 : fadd 50 560 = 610 := by
  have h := fl_eq (50 + 560) 610 9 5365616743546880 (-43) (by norm_num [abs_of_pos])
    (by norm_num) (by norm_num) (by norm_num) (by norm_num) (by norm_num) (by norm_num)
  rw [fadd, h]
  norm_num

theorem fadd_210_38 : fadd 210 38 = 248 := by
  have h := fl_eq (210 + 38) 248 7 8725724278030336 (-45) (by norm_num [abs_of_pos])
    (by norm_num) (by norm_num) (by norm_num) (by norm_num) (by norm_num) (by norm_num)
  rw [fadd, h]
  norm_num

theorem fsub_320_30 : fsub 320 30 = 290 := by
  have h := fl_eq (320 - 30) 290 8 5101733952880640 (-44) (by norm_num [abs_of_pos])
    (by norm_num) (by norm_num) (by norm_num) (by norm_num) (by norm_num) (by norm_num)
  rw [fsub, h]
  norm_num

theorem fadd_50_400 : fadd 50 400 = 450 := by
  have h := fl_eq (50 + 400) 450 8 7916483719987200 (-44) (by norm_num [abs_of_pos])
    (by norm_num) (by norm_num) (by norm_num) (by norm_num) (by norm_num) (by norm_num)
  rw [fadd, h]
  norm_num

theorem fadd_290_38 : fadd 290 38 = 328 := by
  have h := fl_eq (290 + 38) 328 8 5770237022568448 (-44) (by norm_num [abs_of_pos])
    (by norm_num) (by norm_num) (by norm_num) (by norm_num) (by norm_num) (by norm_num)
  rw [fadd, h]
  norm_num

theorem fsub_160_30 : fsub 160 30 = 130 := by
  have h := fl_eq (160 - 30) 130 7 4573968371548160 (-45) (by norm_num [abs_of_pos])
    (by norm_num) (by norm_num) (by norm_num) (by norm_num) (by norm_num) (by norm_num)
  rw [fsub, h]
  norm_num

theorem fadd_130_38 : fadd 130 38 = 168 := by
  have h := fl_eq (130 + 38) 168 7 5910974510923776 (-45) (by norm_num [abs_of_pos])
    (by norm_num) (by norm_num) (by norm_num) (by norm_num) (by norm_num) (by norm_num)
  rw [fadd, h]
  norm_num

theorem fsub_150_0 : fsub 150 0 = 150 := by
  have h := fl_eq (150 - 0) 150 7 5277655813324800 (-45) (by norm_num [abs_of_pos])
    (by norm_num) (by norm_num) (by norm_num) (by norm_num) (by norm_num) (by norm_num)
  rw [fsub, h]
  norm_num

theorem fadd_0_0 : fadd 0 0 = 0 := by
  simp [fadd, fl]

theorem fadd_50_0 : fadd 50 0 = 50 := by
  have h := fl_eq (50 + 0) 50 5 7036874417766400 (-47) (by norm_num [abs_of_pos])
    (by norm_num) (by norm_num) (by norm_num) (by norm_num) (by norm_num) (by norm_num)
  rw [fadd, h]
  norm_num

theorem fadd_150_0 : fadd 150 0 = 150 := by
  have h := fl_eq (150 + 0) 150 7 5277655813324800 (-45) (by norm_num [abs_of_pos])
    (by norm_num) (by norm_num) (by norm_num) (by norm_num) (by norm_num) (by norm_num)
  rw [fadd, h]
  norm_num

theorem fmul_1o8_1024 : fmul (1 / 8) 1024 = 128 := by
  have h := fl_eq ((1 / 8) * 1024) 128 7 4503599627370496 (-45) (by norm_num [abs_of_pos])
    (by norm_num) (by norm_num) (by norm_num) (by norm_num) (by norm_num) (by norm_num)
  rw [fmul, h]
  norm_num

theorem fsub_1_3o4 : fsub 1 (3 / 4) = 1 / 4 := by
  have h := fl_eq (1 - (3 / 4)) (1 / 4) (-2) 4503599627370496 (-54) (by norm_num [abs_of_pos])
    (by norm_num) (by norm_num) (by norm_num) (by norm_num) (by norm_num) (by norm_num)
  rw [fsub, h]
  norm_num

theorem fmul_1o4_512 : fmul (1 / 4) 512 = 128 := by
  have h := fl_eq ((1 / 4) * 512) 128 7 4503599627370496 (-45) (by norm_num [abs_of_pos])
    (by norm_num) (by norm_num) (by norm_num) (by norm_num) (by norm_num) (by norm_num)
  rw [fmul, h]
  norm_num

theorem fmul_1o2_1024 : fmul (1 / 2) 1024 = 512 := by
  have h := fl_eq ((1 / 2) * 1024) 512 9 4503599627370496 (-43) (by norm_num [abs_of_pos])
    (by norm_num) (by norm_num) (by norm_num) (by norm_num) (by norm_num) (by norm_num)
  rw [fmul, h]
  norm_num

theorem fsub_1_1o2 : fsub 1 (1 / 2) = 1 / 2 := by
  have h := fl_eq (1 - (1 / 2)) (1 / 2) (-1) 4503599627370496 (-53) (by norm_num [abs_of_pos])
    (by norm_num) (by norm_num) (by norm_num) (by norm_num) (by norm_num) (by norm_num)
  rw [fsub, h]
  norm_num

theorem fmul_1o2_512 : fmul (1 / 2) 512 = 256 := by
  have h := fl_eq ((1 / 2) * 512) 256 8 4503599627370496 (-44) (by norm_num [abs_of_pos])
    (by norm_num) (by norm_num) (by norm_num) (by norm_num) (by norm_num) (by norm_num)
  rw [fmul, h]
  norm_num

theorem fsub_1_93o128 : fsub 1 (93 / 128) = 35 / 128 := by
  have h := fl_eq (1 - (93 / 128)) (35 / 128) (-2) 4925812092436480 (-54) (by norm_num [abs_of_pos])
    (by norm_num) (by norm_num) (by norm_num) (by norm_num) (by norm_num) (by norm_num)
  rw [fsub, h]
  norm_num

theorem fmul_35o128_512 : fmul (35 / 128) 512 = 140 := by
  have h := fl_eq ((35 / 128) * 512) 140 7 4925812092436480 (-45) (by norm_num [abs_of_pos])
    (by norm_num) (by norm_num) (by norm_num) (by norm_num) (by norm_num) (by norm_num)
  rw [fmul, h]
  norm_num

theorem fsub_1_1o4 : fsub 1 (1 / 4) = 3 / 4 := by
  have h := fl_eq (1 - (1 / 4)) (3 / 4) (-1) 6755399441055744 (-53) (by norm_num [abs_of_pos])
    (by norm_num) (by norm_num) (by norm_num) (by norm_num) (by norm_num) (by norm_num)
  rw [fsub, h]
  norm_num

theorem fmul_3o4_512 : fmul (3 / 4) 512 = 384 := by
  have h := fl_eq ((3 / 4) * 512) 384 8 6755399441055744 (-44) (by norm_num [abs_of_pos])
    (by norm_num) (by norm_num) (by norm_num) (by norm_num) (by norm_num) (by norm_num)
  rw [fmul, h]
  norm_num

theorem fmul_25o512_1024 : fmul (25 / 512) 1024 = 50 := by
  have h := fl_eq ((25 / 512) * 1024) 50 5 7036874417766400 (-47) (by norm_num [abs_of_pos])
    (by norm_num) (by norm_num) (by norm_num) (by norm_num) (by norm_num) (by norm_num)
  rw [fmul, h]
  norm_num

theorem fsub_1_181o256 : fsub 1 (181 / 256) = 75 / 256 := by
  have h := fl_eq (1 - (181 / 256)) (75 / 256) (-2) 5277655813324800 (-54) (by norm_num [abs_of_pos])
    (by norm_num) (by norm_num) (by norm_num) (by norm_num) (by norm_num) (by norm_num)
  rw [fsub, h]
  norm_num

theorem fmul_75o256_512 : fmul (75 / 256) 512 = 150 := by
  have h := fl_eq ((75 / 256) * 512) 150 7 5277655813324800 (-45) (by norm_num [abs_of_pos])
    (by norm_num) (by norm_num) (by norm_num) (by norm_num) (by norm_num) (by norm_num)
  rw [fmul, h]
  norm_num

theorem fsub_128_50 : fsub 128 50 = 78 := by
  have h := fl_eq (128 - 50) 78 6 5488762045857792 (-46) (by norm_num [abs_of_pos])
    (by norm_num) (by norm_num) (by norm_num) (by norm_num) (by norm_num) (by norm_num)
  rw [fsub, h]
  norm_num

theorem fsub_128_150 : fsub 128 150 = -22 := by
  have h := fl_eq (128 - 150) 22 4 (-6192449487634432) (-48) (by norm_num [abs_of_neg])
    (by norm_num) (by norm_num) (by norm_num) (by norm_num) (by norm_num) (by norm_num)
  rw [fsub, h]
  norm_num

theorem fsub_50_50 : fsub 50 50 = 0 := by
  simp [fsub, fl]

theorem fsub_150_150 : fsub 150 150 = 0 := by
  simp [fsub, fl]

theorem fsub_140_160 : fsub 140 160 = -20 := by
  have h := fl_eq (140 - 160) 20 4 (-5629499534213120) (-48) (by norm_num [abs_of_neg])
    (by norm_num) (by norm_num) (by norm_num) (by norm_num) (by norm_num) (by norm_num)
  rw [fsub, h]
  norm_num

theorem fdiv_1024_2 : fdiv 1024 2 = 512 := by
  have h := fl_eq (1024 / 2) 512 9 4503599627370496 (-43) (by norm_num [abs_of_pos])
    (by norm_num) (by norm_num) (by norm_num) (by norm_num) (by norm_num) (by norm_num)
  rw [fdiv, h]
  norm_num

theorem fsub_512_100 : fsub 512 100 = 412 := by
  have h := fl_eq (512 - 100) 412 8 7247980650299392 (-44) (by norm_num [abs_of_pos])
    (by norm_num) (by norm_num) (by norm_num) (by norm_num) (by norm_num) (by norm_num)
  rw [fsub, h]
  norm_num

theorem fsub_512_78 : fsub 512 78 = 434 := by
  have h := fl_eq (512 - 78) 434 8 7635008743276544 (-44) (by norm_num [abs_of_pos])
    (by norm_num) (by norm_num) (by norm_num) (by norm_num) (by norm_num) (by norm_num)
  rw [fsub, h]
  norm_num

theorem fsub_256_m22 : fsub 256 (-22) = 278 := by
  have h := fl_eq (256 - (-22)) 278 8 4890627720347648 (-44) (by norm_num [abs_of_pos])
    (by norm_num) (by norm_num) (by norm_num) (by norm_num) (by norm_num) (by norm_num)
  rw [fsub, h]
  norm_num

theorem fmul_1o4_1024 : fmul (1 / 4) 1024 = 256 := by
  have h := fl_eq ((1 / 4) * 1024) 256 8 4503599627370496 (-44) (by norm_num [abs_of_pos])
    (by norm_num) (by norm_num) (by norm_num) (by norm_num) (by norm_num) (by norm_num)
  rw [fmul, h]
  norm_num

theorem fmul_3o4_1024 : fmul (3 / 4) 1024 = 768 := by
  have h := fl_eq ((3 / 4) * 1024) 768 9 6755399441055744 (-43) (by norm_num [abs_of_pos])
    (by norm_num) (by norm_num) (by norm_num) (by norm_num) (by norm_num) (by norm_num)
  rw [fmul, h]
  norm_num

theorem fsub_256_78 : fsub 256 78 = 178 := by
  have h := fl_eq (256 - 78) 178 7 6262818231812096 (-45) (by norm_num [abs_of_pos])
    (by norm_num) (by norm_num) (by norm_num) (by norm_num) (by norm_num) (by norm_num)
  rw [fsub, h]
  norm_num

theorem fsub_384_m22 : fsub 384 (-22) = 406 := by
  have h := fl_eq (384 - (-22)) 406 8 7142427534032896 (-44) (by norm_num [abs_of_pos])
    (by norm_num) (by norm_num) (by norm_num) (by norm_num) (by norm_num) (by norm_num)
  rw [fsub, h]
  norm_num

theorem fsub_768_78 : fsub 768 78 = 690 := by
  have h := fl_eq (768 - 78) 690 9 6069304185323520 (-43) (by norm_num [abs_of_pos])
    (by norm_num) (by norm_num) (by norm_num) (by norm_num) (by norm_num) (by norm_num)
  rw [fsub, h]
  norm_num

theorem fsub_128_m22 : fsub 128 (-22) = 150 := by
  have h := fl_eq (128 - (-22)) 150 7 5277655813324800 (-45) (by norm_num [abs_of_pos])
    (by norm_num) (by norm_num) (by norm_num) (by norm_num) (by norm_num) (by norm_num)
  rw [fsub, h]
  norm_num

theorem fl_hundredth : fl (1 / 100) = 5764607523034235 / 576460752303423488 := by
  have h := fl_eq (1 / 100) (1 / 100) (-7) 5764607523034235 (-59) (by norm_num [abs_of_pos])
    (by norm_num) (by norm_num) (by norm_num) (by norm_num) (by norm_num) (by norm_num)
  rw [h]
  norm_num

theorem fsub_10_0 : fsub 10 0 = 10 := by
  have h := fl_eq (10 - 0) 10 3 5629499534213120 (-49) (by norm_num [abs_of_pos])
    (by norm_num) (by norm_num) (by norm_num) (by norm_num) (by norm_num) (by norm_num)
  rw [fsub, h]
  norm_num

theorem fmul_10_hundredth : fmul 10 (5764607523034235 / 576460752303423488) = 3602879701896397 / 36028797018963968 := by
  have h := fl_eq (10 * (5764607523034235 / 576460752303423488)) (28823037615171175 / 288230376151711744) (-4) 7205759403792794 (-56) (by norm_num [abs_of_pos])
    (by norm_num) (by norm_num) (by norm_num) (by norm_num) (by norm_num) (by norm_num)
  rw [fmul, h]
  norm_num

theorem fadd_0_tenth : fadd 0 (3602879701896397 / 36028797018963968) = 3602879701896397 / 36028797018963968 := by
  have h := fl_eq (0 + (3602879701896397 / 36028797018963968)) (3602879701896397 / 36028797018963968) (-4) 7205759403792794 (-56) (by norm_num [abs_of_pos])
    (by norm_num) (by norm_num) (by norm_num) (by norm_num) (by norm_num) (by norm_num)
  rw [fadd, h]
  norm_num

theorem fsub_30_10 : fsub 30 10 = 20 := by
  have h := fl_eq (30 - 10) 20 4 5629499534213120 (-48) (by norm_num [abs_of_pos])
    (by norm_num) (by norm_num) (by norm_num) (by norm_num) (by norm_num) (by norm_num)
  rw [fsub, h]
  norm_num

theorem fmul_20_hundredth : fmul 20 (5764607523034235 / 576460752303423488) = 3602879701896397 / 18014398509481984 := by
  have h := fl_eq (20 * (5764607523034235 / 576460752303423488)) (28823037615171175 / 144115188075855872) (-3) 7205759403792794 (-55) (by norm_num [abs_of_pos])
    (by norm_num) (by norm_num) (by norm_num) (by norm_num) (by norm_num) (by norm_num)
  rw [fmul, h]
  norm_num

theorem fadd_tenth_fifth : fadd (3602879701896397 / 36028797018963968) (3602879701896397 / 18014398509481984) = 1351079888211149 / 4503599627370496 := by
  have h := fl_eq_tie ((3602879701896397 / 36028797018963968) + (3602879701896397 / 18014398509481984)) (10808639105689191 / 36028797018963968) (-2) 5404319552844595 5404319552844596 (-54) (by norm_num [abs_of_pos])
    (by norm_num) (by norm_num) (by norm_num) (by norm_num) (by norm_num) (by norm_num)
  rw [fadd, h]
  norm_num

theorem fsub_yaw_yaw : fsub (1351079888211149 / 4503599627370496) (3602879701896397 / 36028797018963968) = 7205759403792795 / 36028797018963968 := by
  have h := fl_eq ((1351079888211149 / 4503599627370496) - (3602879701896397 / 36028797018963968)) (7205759403792795 / 36028797018963968) (-3) 7205759403792795 (-55) (by norm_num [abs_of_pos])
    (by norm_num) (by norm_num) (by norm_num) (by norm_num) (by norm_num) (by norm_num)
  rw [fsub, h]
  norm_num

theorem fsub_150_100 : fsub 150 100 = 50 := by
  have h := fl_eq (150 - 100) 50 5 7036874417766400 (-47) (by norm_num [abs_of_pos])
    (by norm_num) (by norm_num) (by norm_num) (by norm_num) (by norm_num) (by norm_num)
  rw [fsub, h]
  norm_num

theorem fmul_50_hundredth : fmul 50 (5764607523034235 / 576460752303423488) = 1 / 2 := by
  have h := fl_eq (50 * (5764607523034235 / 576460752303423488)) (144115188075855875 / 288230376151711744) (-1) 4503599627370496 (-53) (by norm_num [abs_of_pos])
    (by norm_num) (by norm_num) (by norm_num) (by norm_num) (by norm_num) (by norm_num)
  rw [fmul, h]
  norm_num

theorem fadd_0_1o2 : fadd 0 (1 / 2) = 1 / 2 := by
  have h := fl_eq (0 + (1 / 2)) (1 / 2) (-1) 4503599627370496 (-53) (by norm_num [abs_of_pos])
    (by norm_num) (by norm_num) (by norm_num) (by norm_num) (by norm_num) (by norm_num)
  rw [fadd, h]
  norm_num

theorem fl_tenth : fl (1 / 10) = 3602879701896397 / 36028797018963968 := by
  have h := fl_eq (1 / 10) (1 / 10) (-4) 7205759403792794 (-56) (by norm_num [abs_of_pos])
    (by norm_num) (by norm_num) (by norm_num) (by norm_num) (by norm_num) (by norm_num)
  rw [h]
  norm_num

theorem fl_three_tenths : fl (3 / 10) = 5404319552844595 / 18014398509481984 := by
  have h := fl_eq (3 / 10) (3 / 10) (-2) 5404319552844595 (-54) (by norm_num [abs_of_pos])
    (by norm_num) (by norm_num) (by norm_num) (by norm_num) (by norm_num) (by norm_num)
  rw [h]
  norm_num

theorem fmul_tenth_1024 : fmul (3602879701896397 / 36028797018963968) 1024 = 3602879701896397 / 35184372088832 := by
  have h := fl_eq ((3602879701896397 / 36028797018963968) * 1024) (3602879701896397 / 35184372088832) 6 7205759403792794 (-46) (by norm_num [abs_of_pos])
    (by norm_num) (by norm_num) (by norm_num) (by norm_num) (by norm_num) (by norm_num)
  rw [fmul, h]
  norm_num

theorem fsub_cx_tenth_78 : fsub (3602879701896397 / 35184372088832) 78 = 858498678967501 / 35184372088832 := by
  have h := fl_eq ((3602879701896397 / 35184372088832) - 78) (858498678967501 / 35184372088832) 4 6867989431740008 (-48) (by norm_num [abs_of_pos])
    (by norm_num) (by norm_num) (by norm_num) (by norm_num) (by norm_num) (by norm_num)
  rw [fsub, h]
  norm_num

theorem fsub_1_tenth : fsub 1 (3602879701896397 / 36028797018963968) = 8106479329266893 / 9007199254740992 := by
  have h := fl_eq (1 - (3602879701896397 / 36028797018963968)) (32425917317067571 / 36028797018963968) (-1) 8106479329266893 (-53) (by norm_num [abs_of_pos])
    (by norm_num) (by norm_num) (by norm_num) (by norm_num) (by norm_num) (by norm_num)
  rw [fsub, h]
  norm_num

theorem fmul_w_tenth_512 : fmul (8106479329266893 / 9007199254740992) 512 = 8106479329266893 / 17592186044416 := by
  have h := fl_eq ((8106479329266893 / 9007199254740992) * 512) (8106479329266893 / 17592186044416) 8 8106479329266893 (-44) (by norm_num [abs_of_pos])
    (by norm_num) (by norm_num) (by norm_num) (by norm_num) (by norm_num) (by norm_num)
  rw [fmul, h]
  norm_num

theorem fsub_cy_tenth_m22 : fsub (8106479329266893 / 17592186044416) (-22) = 8493507422244045 / 17592186044416 := by
  have h := fl_eq ((8106479329266893 / 17592186044416) - (-22)) (8493507422244045 / 17592186044416) 8 8493507422244045 (-44) (by norm_num [abs_of_pos])
    (by norm_num) (by norm_num) (by norm_num) (by norm_num) (by norm_num) (by norm_num)
  rw [fsub, h]
  norm_num

theorem fmul_three_tenths_1024 : fmul (5404319552844595 / 18014398509481984) 1024 = 5404319552844595 / 17592186044416 := by
  have h := fl_eq ((5404319552844595 / 18014398509481984) * 1024) (5404319552844595 / 17592186044416) 8 5404319552844595 (-44) (by norm_num [abs_of_pos])
    (by norm_num) (by norm_num) (by norm_num) (by norm_num) (by norm_num) (by norm_num)
  rw [fmul, h]
  norm_num

theorem fsub_cx_three_tenths_78 : fsub (5404319552844595 / 17592186044416) 78 = 4032129041380147 / 17592186044416 := by
  have h := fl_eq ((5404319552844595 / 17592186044416) - 78) (4032129041380147 / 17592186044416) 7 8064258082760294 (-45) (by norm_num [abs_of_pos])
    (by norm_num) (by norm_num) (by norm_num) (by norm_num) (by norm_num) (by norm_num)
  rw [fsub, h]
  norm_num

theorem fsub_1_three_tenths : fsub 1 (5404319552844595 / 18014398509481984) = 3152519739159347 / 4503599627370496 := by
  have h := fl_eq_tie (1 - (5404319552844595 / 18014398509481984)) (12610078956637389 / 18014398509481984) (-1) 6305039478318694 6305039478318694 (-53) (by norm_num [abs_of_pos])
    (by norm_num) (by norm_num) (by norm_num) (by norm_num) (by norm_num) (by norm_num)
  rw [fsub, h]
  norm_num

theorem fmul_w_three_tenths_512 : fmul (3152519739159347 / 4503599627370496) 512 = 3152519739159347 / 8796093022208 := by
  have h := fl_eq ((3152519739159347 / 4503599627370496) * 512) (3152519739159347 / 8796093022208) 8 6305039478318694 (-44) (by norm_num [abs_of_pos])
    (by norm_num) (by norm_num) (by norm_num) (by norm_num) (by norm_num) (by norm_num)
  rw [fmul, h]
  norm_num

theorem fsub_cy_three_tenths_m22 : fsub (3152519739159347 / 8796093022208) (-22) = 3346033785647923 / 8796093022208 := by
  have h := fl_eq ((3152519739159347 / 8796093022208) - (-22)) (3346033785647923 / 8796093022208) 8 6692067571295846 (-44) (by norm_num [abs_of_pos])
    (by norm_num) (by norm_num) (by norm_num) (by norm_num) (by norm_num) (by norm_num)
  rw [fsub, h]
  norm_num

theorem fsub_v_v : fsub (5404319552844595 / 18014398509481984) (3602879701896397 / 36028797018963968) = 7205759403792793 / 36028797018963968 := by
  have h := fl_eq ((5404319552844595 / 18014398509481984) - (3602879701896397 / 36028797018963968)) (7205759403792793 / 36028797018963968) (-3) 7205759403792793 (-55) (by norm_num [abs_of_pos])
    (by norm_num) (by norm_num) (by norm_num) (by norm_num) (by norm_num) (by norm_num)
  rw [fsub, h]
  norm_num

theorem fmul_negdv_512 : fmul (-(7205759403792793 / 36028797018963968)) 512 = -(7205759403792793 / 70368744177664) := by
  have h := fl_eq ((-(7205759403792793 / 36028797018963968)) * 512) (7205759403792793 / 70368744177664) 6 (-7205759403792793) (-46) (by norm_num [abs_of_neg])
    (by norm_num) (by norm_num) (by norm_num) (by norm_num) (by norm_num) (by norm_num)
  rw [fmul, h]
  norm_num

theorem fsub_ay_ay : fsub (3346033785647923 / 8796093022208) (8493507422244045 / 17592186044416) = -(1801439850948199 / 17592186044416) := by
  have h := fl_eq ((3346033785647923 / 8796093022208) - (8493507422244045 / 17592186044416)) (1801439850948199 / 17592186044416) 6 (-7205759403792796) (-46) (by norm_num [abs_of_neg])
    (by norm_num) (by norm_num) (by norm_num) (by norm_num) (by norm_num) (by norm_num)
  rw [fsub, h]
  norm_num

theorem fdiv_200_2 : fdiv 200 2 = 100 := by
  have h := fl_eq (200 / 2) 100 6 7036874417766400 (-46) (by norm_num [abs_of_pos])
    (by norm_num) (by norm_num) (by norm_num) (by norm_num) (by norm_num) (by norm_num)
  rw [fdiv, h]
  norm_num

/-! ## Lemmas on element maps and the hit-test loop -/

theorem lookup_modifyEl (key k : String) (f : ElementData → ElementData) (els : Elements) :
    (modifyEl key f els).lookup k
      = if k = key then (els.lookup k).map f else els.lookup k := by
  induction els with
  | nil => simp [modifyEl]
  | cons p rest ih =>
    obtain ⟨k0, el⟩ := p
    by_cases h0 : k0 = key
    · subst h0
      by_cases hk : k = k0
      · subst hk
        simp [modifyEl, List.lookup]
      · have hb : (k == k0) = false := by simpa using hk
        simp [modifyEl, List.lookup, hb, hk]
    · by_cases hk : k = k0
      · subst hk
        simp [modifyEl, List.lookup, h0]
      · have hb : (k == k0) = false := by simpa using hk
        simp [modifyEl, List.lookup, h0, hb, ih]

theorem anchorOf_modifyEl_of_preserves (key k : String) (f : ElementData → ElementData)
    (els : Elements) (hx : ∀ el, (f el).x = el.x) (hy : ∀ el, (f el).y = el.y) :
    anchorOf (modifyEl key f els) k = anchorOf els k := by
  unfold anchorOf
  rw [lookup_modifyEl]
  split
  · cases els.lookup k <;> simp [hx, hy]
  · rfl

theorem anchorAt_updateCardTextures (s : State) (side : Side) (k : String) :
    (updateCardTextures s).anchorAt side k = s.anchorAt side k := by
  cases side <;>
    simp [State.anchorAt, updateCardTextures, CardElements.get, anchorOf_modifyEl_of_preserves]

theorem anchorAt_setDraggedPosition_same (s : State) (d : DraggedElement) (x y : ℚ)
    (el : ElementData) (h : s.elementAt d.side d.key = some el) :
    (setDraggedPosition s d x y).anchorAt d.side d.key = some (x, y) := by
  obtain ⟨side, key⟩ := d
  cases side <;>
    simp_all [State.anchorAt, State.elementAt, setDraggedPosition, CardElements.get,
      CardElements.setElements, anchorOf, lookup_modifyEl]

theorem hitTest_some (ctx : Ctx) (els : Elements) (cx cy : ℚ) (keys : List String)
    (k : String) (el : ElementData) (h : hitTest ctx els cx cy keys = some (k, el)) :
    k ∈ keys ∧ els.lookup k = some el ∧
      ∃ b, bboxOf el ctx = some b ∧ inBBox cx cy b = true := by
  induction keys with
  | nil => simp [hitTest] at h
  | cons key rest ih =>
    unfold hitTest at h
    split at h
    · have := ih h
      exact ⟨List.mem_cons_of_mem _ this.1, this.2⟩
    · rename_i el0 hl
      split at h
      · have := ih h
        exact ⟨List.mem_cons_of_mem _ this.1, this.2⟩
      · rename_i b hb
        by_cases hin : inBBox cx cy b = true
        · simp [hin] at h
          obtain ⟨h1, h2⟩ := h
          subst h1; subst h2
          exact ⟨List.mem_cons_self _ _, hl, b, hb, hin⟩
        · simp [hin] at h
          have := ih h
          exact ⟨List.mem_cons_of_mem _ this.1, this.2⟩

/-- What the pointer-down handler leaves in `draggedElement`: the picked
element if the loop found one, the previous value otherwise. -/
theorem pointerdown_draggedElement (s : State) (event : PointerEvent) :
    (∃ side cx cy key el, pickFace event.intersects = some (side, cx, cy) ∧
        hitTest (s.cardElements.get side).ctx (s.cardElements.get side).elements cx cy
          (reversedKeys (s.cardElements.get side).elements) = some (key, el) ∧
        (pointerdown s event).draggedElement = some { side := side, key := key } ∧
        (pointerdown s event).isCardDragging = false) ∨
    ((pointerdown s event).draggedElement = s.draggedElement ∧
      (pointerdown s event).isCardDragging = true) := by
  unfold pointerdown
  split
  · right; simp [startRotation]
  · rename_i side cx cy hp
    dsimp only
    split
    · rename_i key el hh
      left
      exact ⟨side, cx, cy, key, el, hp, hh, rfl, rfl⟩
    · right; simp [startRotation]

theorem lookup_of_nodup (els : Elements) (k : String) (el : ElementData)
    (hn : (els.map Prod.fst).Nodup) (hm : (k, el) ∈ els) : els.lookup k = some el := by
  induction els with
  | nil => simp at hm
  | cons p rest ih =>
    obtain ⟨k0, el0⟩ := p
    simp only [List.map_cons, List.nodup_cons] at hn
    rcases List.mem_cons.mp hm with h | h
    · cases h
      simp [List.lookup]
    · have hne : k ≠ k0 := by
        intro hk
        subst hk
        exact hn.1 (List.mem_map_of_mem Prod.fst h)
      have hb : (k == k0) = false := by simpa using hne
      simp [List.lookup, hb, ih hn.2 h]

theorem hitTest_cons (ctx : Ctx) (els : Elements) (cx cy : ℚ) (k : String)
    (rest : List String) :
    hitTest ctx els cx cy (k :: rest)
      = match els.lookup k with
        | none => hitTest ctx els cx cy rest
        | some el => if hits ctx cx cy el = true then some (k, el)
            else hitTest ctx els cx cy rest := by
  rw [hitTest]
  cases els.lookup k with
  | none => rfl
  | some el =>
    simp only [hits]
    split <;> simp_all

theorem hitTest_skip (ctx : Ctx) (els : Elements) (cx cy : ℚ) (keys1 keys2 : List String)
    (h : ∀ k ∈ keys1, ∀ el, els.lookup k = some el → hits ctx cx cy el = false) :
    hitTest ctx els cx cy (keys1 ++ keys2) = hitTest ctx els cx cy keys2 := by
  induction keys1 with
  | nil => rfl
  | cons k rest ih =>
    have ih1 := ih (fun k1 hk1 => h k1 (List.mem_cons_of_mem _ hk1))
    have hk := h k (List.mem_cons_self _ _)
    rw [List.cons_append, hitTest_cons]
    cases hl : els.lookup k with
    | none => simpa using ih1
    | some el => simpa [hk el hl] using ih1

theorem hitTest_head (ctx : Ctx) (els : Elements) (cx cy : ℚ) (k : String) (rest : List String)
    (el : ElementData) (hl : els.lookup k = some el) (hh : hits ctx cx cy el = true) :
    hitTest ctx els cx cy (k :: rest) = some (k, el) := by
  rw [hitTest_cons, hl]
  simp [hh]

theorem pickFace_cons (intersection : Intersection) (rest : List Intersection) (side : Side)
    (h : sideKey intersection.faceIndex = some side) :
    pickFace (intersection :: rest)
      = some (side, fmul intersection.uv.x 1024, fmul (fsub 1 intersection.uv.y) 512) := by
  simp only [pickFace, h, canvasX, canvasY, canvasWidth, canvasHeight]

/-- The state after a pointer-down that hits `side` at `(cx, cy)` when the
element under `key` contains the point and no later element does. -/
theorem pointerdown_of_topmost (s : State) (event : PointerEvent) (side : Side)
    (cx cy : ℚ) (before after : Elements) (key : String) (el : ElementData)
    (hp : pickFace event.intersects = some (side, cx, cy))
    (hels : (s.cardElements.get side).elements = before ++ (key, el) :: after)
    (hnodup : ((s.cardElements.get side).elements.map Prod.fst).Nodup)
    (hhit : hits (s.cardElements.get side).ctx cx cy el = true)
    (hafter : ∀ p ∈ after, hits (s.cardElements.get side).ctx cx cy p.2 = false) :
    pointerdown s event
      = { s with
          currentCanvasState := some side
          draggedElement := some { side := side, key := key }
          dragOffset := { x := fsub cx el.x, y := fsub cy el.y }
          isCardDragging := false } := by
  have hmem : (key, el) ∈ (s.cardElements.get side).elements := by
    rw [hels]; simp
  have hlk : (s.cardElements.get side).elements.lookup key = some el :=
    lookup_of_nodup _ _ _ hnodup hmem
  have hkeys : reversedKeys (s.cardElements.get side).elements
      = (after.map Prod.fst).reverse ++ key :: (before.map Prod.fst).reverse := by
    simp [reversedKeys, hels]
  have hskip : ∀ k ∈ (after.map Prod.fst).reverse, ∀ el0,
      (s.cardElements.get side).elements.lookup k = some el0 →
      hits (s.cardElements.get side).ctx cx cy el0 = false := by
    intro k hk el0 hl0
    rw [List.mem_reverse, List.mem_map] at hk
    obtain ⟨p, hpa, hpk⟩ := hk
    have hpm : (k, p.2) ∈ (s.cardElements.get side).elements := by
      rw [hels, ← hpk]
      exact List.mem_append_right _ (List.mem_cons_of_mem _ hpa)
    have := lookup_of_nodup _ _ _ hnodup hpm
    rw [this] at hl0
    cases hl0
    exact hafter p hpa
  have hres : hitTest (s.cardElements.get side).ctx (s.cardElements.get side).elements cx cy
      (reversedKeys (s.cardElements.get side).elements) = some (key, el) := by
    rw [hkeys, hitTest_skip _ _ _ _ _ _ hskip]
    exact hitTest_head _ _ _ _ _ _ _ hlk hhit
  simp [pointerdown, hp, hres]

/-- The state after a pointer-down that resolves no face. -/
theorem pointerdown_of_miss (s : State) (event : PointerEvent)
    (hp : pickFace event.intersects = none) :
    pointerdown s event = startRotation s event := by
  simp [pointerdown, hp]

/-- One pointer-move of the drag branch with a ray hit. -/
theorem pointermove_drag (t : State) (e : PointerEvent) (i : Intersection)
    (r : List Intersection) (d : DraggedElement) (el0 : ElementData)
    (htd : t.draggedElement = some d) (htel : t.elementAt d.side d.key = some el0)
    (hi : e.intersects = i :: r) :
    (pointermove t e).anchorAt d.side d.key
        = some (fsub (fmul i.uv.x 1024) t.dragOffset.x,
                fsub (fmul (fsub 1 i.uv.y) 512) t.dragOffset.y) ∧
      (pointermove t e).rotationY = t.rotationY ∧
      (pointermove t e).dragOffset = t.dragOffset ∧
      (pointermove t e).draggedElement = some d ∧
      ∃ el1, (pointermove t e).elementAt d.side d.key = some el1 := by
  have heq : pointermove t e
      = updateCardTextures
          (setDraggedPosition t d (fsub (canvasX i.uv) t.dragOffset.x)
            (fsub (canvasY i.uv) t.dragOffset.y)) := by
    simp [pointermove, htd, hi]
  have ha : (pointermove t e).anchorAt d.side d.key
      = some (fsub (fmul i.uv.x 1024) t.dragOffset.x,
              fsub (fmul (fsub 1 i.uv.y) 512) t.dragOffset.y) := by
    rw [heq, anchorAt_updateCardTextures, anchorAt_setDraggedPosition_same t d _ _ el0 htel]
    simp only [canvasX, canvasY, canvasWidth, canvasHeight]
  refine ⟨ha, ?_, ?_, ?_, ?_⟩
  · rw [heq]; rfl
  · rw [heq]; rfl
  · rw [heq]; simpa [updateCardTextures, setDraggedPosition] using htd
  · have h := ha
    simp only [State.anchorAt, anchorOf, State.elementAt] at h ⊢
    cases hl : List.lookup d.key ((pointermove t e).cardElements.get d.side).elements with
    | none => rw [hl] at h; simp at h
    | some el1 => exact ⟨el1, rfl⟩

/-- One pointer-move of the rotation branch. -/
theorem pointermove_rotation (s : State) (event : PointerEvent)
    (hd : s.draggedElement = none) (hr : s.isCardDragging = true) :
    pointermove s event
      = { s with
          rotationY := fadd s.rotationY (fmul (fsub event.clientX s.previousMouseX) (fl (1 / 100)))
          previousMouseX := event.clientX } := by
  simp only [pointermove, hd, hr, if_true]

/-! ## Lemmas on the fixtures -/

theorem length_name : "Aisha Nama".length = 10 := rfl

theorem length_title : "AI & Data Science Enthusiast".length = 28 := rfl

theorem length_contact : "aisha.nama@email.com".length = 20 := rfl

theorem sample_front_elements :
    (sampleState.cardElements.get Side.front).elements
      = [("name", nameElement), ("title", titleElement), ("contact", contactElement)] := by
  simp [sampleState, initialState, updateCardTextures, modifyEl, defaultForm, CardElements.get,
    nameElement, titleElement, contactElement]

theorem sample_front_ctx : (sampleState.cardElements.get Side.front).ctx = monoCtx := rfl

theorem sample_logo : sampleState.elementAt Side.back "logo" = some logoElement := by
  simp [State.elementAt, sampleState, initialState, updateCardTextures, modifyEl, defaultForm,
    CardElements.get, List.lookup, logoElement, canvasWidth, fdiv_1024_2, fsub_512_100]

theorem emptyName_front_elements :
    (emptyNameState.cardElements.get Side.front).elements
      = [("name", emptyNameElement), ("title", titleElement), ("contact", contactElement)] := by
  simp [emptyNameState, initialState, updateCardTextures, modifyEl, defaultForm,
    CardElements.get, emptyNameElement, titleElement, contactElement]

theorem emptyName_front_ctx : (emptyNameState.cardElements.get Side.front).ctx = monoCtx := rfl

theorem overlap_front_elements :
    (overlapState.cardElements.get Side.front).elements
      = [("name", nameElement), ("title", movedTitleElement), ("contact", contactElement)] :=
  rfl

theorem overlap_front_ctx : (overlapState.cardElements.get Side.front).ctx = monoCtx := rfl

theorem front_keys_nodup (a b c : ElementData) :
    (([("name", a), ("title", b), ("contact", c)] : Elements).map Prod.fst).Nodup := by
  simp

theorem hits_name_128_128 : hits monoCtx 128 128 nameElement = true := by
  simp [hits, bboxOf, getTextBBox, alignOf, inBBox, monoCtx, nameElement, length_name]
  norm_num [fsub_150_30, fadd_30_8, fadd_50_200, fadd_120_38]

theorem hits_title_128_128 : hits monoCtx 128 128 titleElement = false := by
  simp [hits, bboxOf, getTextBBox, alignOf, inBBox, monoCtx, titleElement, length_title]
  norm_num [fsub_240_30, fadd_30_8, fadd_50_560, fadd_210_38]

theorem hits_contact_128_128 : hits monoCtx 128 128 contactElement = false := by
  simp [hits, bboxOf, getTextBBox, alignOf, inBBox, monoCtx, contactElement, length_contact]
  norm_num [fsub_320_30, fadd_30_8, fadd_50_400, fadd_290_38]

theorem hits_name_128_140 : hits monoCtx 128 140 nameElement = true := by
  simp [hits, bboxOf, getTextBBox, alignOf, inBBox, monoCtx, nameElement, length_name]
  norm_num [fsub_150_30, fadd_30_8, fadd_50_200, fadd_120_38]

theorem hits_movedTitle_128_140 : hits monoCtx 128 140 movedTitleElement = true := by
  simp [hits, bboxOf, getTextBBox, alignOf, inBBox, monoCtx, movedTitleElement, length_title]
  norm_num [fsub_160_30, fadd_30_8, fadd_50_560, fadd_130_38]

theorem hits_contact_128_140 : hits monoCtx 128 140 contactElement = false := by
  simp [hits, bboxOf, getTextBBox, alignOf, inBBox, monoCtx, contactElement, length_contact]
  norm_num [fsub_320_30, fadd_30_8, fadd_50_400, fadd_290_38]

theorem bboxOf_emptyName :
    bboxOf emptyNameElement monoCtx = some { x := 50, y := 150, width := 0, height := 0 } := by
  simp [bboxOf, getTextBBox, alignOf, monoCtx, emptyNameElement, fsub_150_0, fadd_0_0, fadd_50_0, fadd_150_0]

theorem hits_emptyName_50_150 : hits monoCtx 50 150 emptyNameElement = true := by
  simp [hits, bboxOf_emptyName, inBBox, fsub_150_0, fadd_0_0, fadd_50_0, fadd_150_0]

theorem hits_title_50_150 : hits monoCtx 50 150 titleElement = false := by
  simp [hits, bboxOf, getTextBBox, alignOf, inBBox, monoCtx, titleElement, length_title]
  norm_num [fsub_240_30, fadd_30_8, fadd_50_560, fadd_210_38]

theorem hits_contact_50_150 : hits monoCtx 50 150 contactElement = false := by
  simp [hits, bboxOf, getTextBBox, alignOf, inBBox, monoCtx, contactElement, length_contact]
  norm_num [fsub_320_30, fadd_30_8, fadd_50_400, fadd_290_38]

theorem pick_name_point (rest : List Intersection) :
    pickFace ({ faceIndex := 8, uv := { x := 1 / 8, y := 3 / 4 } } :: rest)
      = some (Side.front, 128, 128) := by
  rw [pickFace_cons _ _ Side.front (by decide)]
  simp only [fmul_1o8_1024, fsub_1_3o4, fmul_1o4_512]

theorem pick_overlap_point (rest : List Intersection) :
    pickFace ({ faceIndex := 8, uv := { x := 1 / 8, y := 93 / 128 } } :: rest)
      = some (Side.front, 128, 140) := by
  rw [pickFace_cons _ _ Side.front (by decide)]
  simp only [fmul_1o8_1024, fsub_1_93o128, fmul_35o128_512]

theorem pick_anchor_point (rest : List Intersection) :
    pickFace ({ faceIndex := 8, uv := { x := 25 / 512, y := 181 / 256 } } :: rest)
      = some (Side.front, 50, 150) := by
  rw [pickFace_cons _ _ Side.front (by decide)]
  simp only [fmul_25o512_1024, fsub_1_181o256, fmul_75o256_512]

theorem pick_logo_point (rest : List Intersection) :
    pickFace ({ faceIndex := 10, uv := { x := 1 / 2, y := 1 / 4 } } :: rest)
      = some (Side.back, 512, 384) := by
  rw [pickFace_cons _ _ Side.back (by decide)]
  simp only [fmul_1o2_1024, fsub_1_1o4, fmul_3o4_512]

/-- A pointer-down at canvas point `(128, 128)` of the front face, on any state
with the element maps of the sample state, picks the name element. -/
theorem sample_pointerdown_name (s : State) (c : ℚ)
    (hs : s.cardElements = sampleState.cardElements) :
    pointerdown s
        { clientX := c, intersects := [{ faceIndex := 8, uv := { x := 1 / 8, y := 3 / 4 } }] }
      = { s with
          currentCanvasState := some Side.front
          draggedElement := some { side := Side.front, key := "name" }
          dragOffset := { x := 78, y := -22 }
          isCardDragging := false } := by
  have h := pointerdown_of_topmost s
    { clientX := c, intersects := [{ faceIndex := 8, uv := { x := 1 / 8, y := 3 / 4 } }] }
    Side.front 128 128 [] [("title", titleElement), ("contact", contactElement)] "name"
    nameElement (pick_name_point [])
    (by rw [hs]; exact sample_front_elements)
    (by rw [hs, sample_front_elements]; exact front_keys_nodup _ _ _)
    (by rw [hs, sample_front_ctx]; exact hits_name_128_128)
    (by
      rw [hs, sample_front_ctx]
      intro p hp
      simp only [List.mem_cons, List.mem_singleton, List.not_mem_nil, or_false] at hp
      rcases hp with rfl | rfl
      · exact hits_title_128_128
      · exact hits_contact_128_128)
  rw [h]
  simp only [nameElement, fsub_128_50, fsub_128_150]

theorem draggingState_eq :
    draggingState
      = { sampleState with
          currentCanvasState := some Side.front
          draggedElement := some { side := Side.front, key := "name" }
          dragOffset := { x := 78, y := -22 }
          isCardDragging := false } :=
  sample_pointerdown_name sampleState 0 rfl

theorem draggingState_name : draggingState.elementAt Side.front "name" = some nameElement := by
  rw [draggingState_eq]
  show List.lookup "name" (sampleState.cardElements.get Side.front).elements = some nameElement
  rw [sample_front_elements]
  simp [List.lookup]

theorem emptyName_pointerdown :
    pointerdown emptyNameState
        { clientX := 0,
          intersects := [{ faceIndex := 8, uv := { x := 25 / 512, y := 181 / 256 } }] }
      = { emptyNameState with
          currentCanvasState := some Side.front
          draggedElement := some { side := Side.front, key := "name" }
          dragOffset := { x := 0, y := 0 }
          isCardDragging := false } := by
  have h := pointerdown_of_topmost emptyNameState
    { clientX := 0,
      intersects := [{ faceIndex := 8, uv := { x := 25 / 512, y := 181 / 256 } }] }
    Side.front 50 150 [] [("title", titleElement), ("contact", contactElement)] "name"
    emptyNameElement (pick_anchor_point [])
    (by exact emptyName_front_elements)
    (by rw [emptyName_front_elements]; exact front_keys_nodup _ _ _)
    (by rw [emptyName_front_ctx]; exact hits_emptyName_50_150)
    (by
      rw [emptyName_front_ctx]
      intro p hp
      simp only [List.mem_cons, List.mem_singleton, List.not_mem_nil, or_false] at hp
      rcases hp with rfl | rfl
      · exact hits_title_50_150
      · exact hits_contact_50_150)
  rw [h]
  simp only [emptyNameElement, fsub_50_50, fsub_150_150]

theorem rotatingState_eq :
    rotatingState
      = { sampleState with
          isCardDragging := true
          previousMouseX := 10
          rotationY := 3602879701896397 / 36028797018963968 } := by
  have h0 : pointerdown sampleState { clientX := 0, intersects := [] }
      = startRotation sampleState { clientX := 0, intersects := [] } :=
    pointerdown_of_miss _ _ rfl
  simp only [rotatingState, run, List.foldl, step]
  rw [h0, pointermove_rotation _ _ rfl rfl]
  simp only [startRotation]
  have hy : sampleState.rotationY = 0 := rfl
  simp only [hy, fsub_10_0, fl_hundredth, fmul_10_hundredth, fadd_0_tenth]

/-! ## Picking: face classification and canvas coordinates -/

/-- C1: in the pointer-down picking step the nearest intersection with polygon
index `f` and UV `(u, v)` resolves to the front face when `f` is 8 or 9, to the
back face when `f` is 10 or 11, and to no face when `f ≤ 7`; for a front or
back hit the canvas coordinate is `(u * 1024, (1 - v) * 512)`, the operations
being those of the program (doubles). Polygon 8 at UV `(1/2, 1/2)` resolves to
the front face at `(512, 256)`. -/
theorem pickFace_classification (f : Nat) (u v : ℚ) (rest : List Intersection) :
    ((f = 8 ∨ f = 9) →
      pickFace ({ faceIndex := f, uv := { x := u, y := v } } :: rest)
        = some (Side.front, fmul u 1024, fmul (fsub 1 v) 512)) ∧
    ((f = 10 ∨ f = 11) →
      pickFace ({ faceIndex := f, uv := { x := u, y := v } } :: rest)
        = some (Side.back, fmul u 1024, fmul (fsub 1 v) 512)) ∧
    (f ≤ 7 →
      pickFace ({ faceIndex := f, uv := { x := u, y := v } } :: rest) = none) ∧
    pickFace ({ faceIndex := 8, uv := { x := 1 / 2, y := 1 / 2 } } :: rest)
      = some (Side.front, 512, 256) := by
  refine ⟨?_, ?_, ?_, ?_⟩
  · intro h
    rcases h with h | h <;> subst h <;> exact pickFace_cons _ _ Side.front rfl
  · intro h
    rcases h with h | h <;> subst h <;> exact pickFace_cons _ _ Side.back rfl
  · intro h
    have h8 : ¬ (f ≥ 8 ∧ f ≤ 9) := by omega
    have h10 : ¬ (f ≥ 10 ∧ f ≤ 11) := by omega
    simp [pickFace, sideKey, h8, h10]
  · rw [pickFace_cons _ _ Side.front (by decide)]
    simp only [fmul_1o2_1024, fsub_1_1o2, fmul_1o2_512]

/-- Instance of C1: polygon 11 at UV `(1/4, 1/4)` is a back-face hit at
`(256, 384)`. -/
theorem pickFace_classification_witness :
    (11 = 10 ∨ 11 = 11) ∧
    pickFace ({ faceIndex := 11, uv := { x := 1 / 4, y := 1 / 4 } } :: [])
      = some (Side.back, fmul (1 / 4) 1024, fmul (fsub 1 (1 / 4)) 512) ∧
    fmul (1 / 4) 1024 = 256 ∧ fmul (fsub 1 (1 / 4)) 512 = 384 :=
  ⟨Or.inr rfl, (pickFace_classification 11 (1 / 4) (1 / 4) []).2.1 (Or.inr rfl),
    fmul_1o4_1024, by simp only [fmul_1o4_1024, fsub_1_1o4, fmul_3o4_512]⟩

/-! ## Text bounding box -/

/-- C7: for a text element with anchor `x` and measured width `w`, the box of
`getTextBBox` has x-origin `x - w / 2` for alignment "center", `x - w` for
"right" (both in the arithmetic of the program), and `x` for "left" or no
alignment. -/
theorem getTextBBox_x_origin (elementData : ElementData) (ctx : Ctx) (t : String) (w : ℚ)
    (ht : elementData.text = some t)
    (hw : (ctx.measureText elementData.font t).width = w) :
    (elementData.align = some "center" →
      (getTextBBox elementData ctx).x = fsub elementData.x (fdiv w 2)) ∧
    (elementData.align = some "right" →
      (getTextBBox elementData ctx).x = fsub elementData.x w) ∧
    (elementData.align = some "left" ∨ elementData.align = none →
      (getTextBBox elementData ctx).x = elementData.x) := by
  subst hw
  refine ⟨?_, ?_, ?_⟩
  · intro h
    simp [getTextBBox, alignOf, h, ht]
  · intro h
    simp [getTextBBox, alignOf, h, ht]
  · intro h
    rcases h with h | h <;> simp [getTextBBox, alignOf, h]

/-- Instance of C7: a centred ten-character slogan at `x = 512` under the
fixed-advance measurer has x-origin `512 - 200 / 2 = 412`. -/
theorem getTextBBox_x_origin_witness :
    (getTextBBox { text := some "0123456789", x := 512, y := 200, align := some "center" }
      monoCtx).x = fsub 512 (fdiv 200 2) ∧ fsub 512 (fdiv 200 2) = 412 :=
  ⟨(getTextBBox_x_origin { text := some "0123456789", x := 512, y := 200, align := some "center" }
    monoCtx "0123456789" 200 rfl
    (by simp [monoCtx]; rw [show "0123456789".length = 10 from rfl]; norm_num)).1 rfl,
   by simp only [fdiv_200_2, fsub_512_100]⟩

/-! ## Rotation and pointer-up -/

/-- C4 as stated fails: after a pointer-down at device x 0 that misses the card
and a move to x 10 the yaw is the double 0.1; the next move to x 30 gives
0.30000000000000004, and the change of the yaw differs from the double product
`20 * 0.01` (0.2), whether the difference is taken exactly or in doubles, and
from the exact product `20 / 100`. -/
theorem yaw_change_rounds :
    rotatingState.draggedElement = none ∧
    rotatingState.isCardDragging = true ∧
    rotatingState.previousMouseX = 10 ∧
    rotatingState.rotationY = 3602879701896397 / 36028797018963968 ∧
    (pointermove rotatingState { clientX := 30, intersects := [] }).rotationY
      = 1351079888211149 / 4503599627370496 ∧
    (pointermove rotatingState { clientX := 30, intersects := [] }).rotationY
        - rotatingState.rotationY
      ≠ fmul (fsub 30 rotatingState.previousMouseX) (fl (1 / 100)) ∧
    fsub (pointermove rotatingState { clientX := 30, intersects := [] }).rotationY
        rotatingState.rotationY
      ≠ fmul (fsub 30 rotatingState.previousMouseX) (fl (1 / 100)) ∧
    (pointermove rotatingState { clientX := 30, intersects := [] }).rotationY
        - rotatingState.rotationY
      ≠ (30 - rotatingState.previousMouseX) * (1 / 100) := by
  have hd : rotatingState.draggedElement = none := by rw [rotatingState_eq]; rfl
  have hr : rotatingState.isCardDragging = true := by rw [rotatingState_eq]
  have hp : rotatingState.previousMouseX = 10 := by rw [rotatingState_eq]
  have hy : rotatingState.rotationY = 3602879701896397 / 36028797018963968 := by
    rw [rotatingState_eq]
  have h2 : (pointermove rotatingState { clientX := 30, intersects := [] }).rotationY
      = 1351079888211149 / 4503599627370496 := by
    rw [pointermove_rotation _ _ hd hr]
    simp only [hp, hy, fsub_30_10, fl_hundredth, fmul_20_hundredth, fadd_tenth_fifth]
  refine ⟨hd, hr, hp, hy, h2, ?_, ?_, ?_⟩
  · rw [h2, hy, hp]
    simp only [fsub_30_10, fl_hundredth, fmul_20_hundredth]
    norm_num
  · rw [h2, hy, hp]
    simp only [fsub_30_10, fl_hundredth, fmul_20_hundredth, fsub_yaw_yaw]
    norm_num
  · rw [h2, hy, hp]
    norm_num

/-- C4, amended: with rotation active and no dragged element, a pointer-move at
device x-coordinate `cx` sets the yaw to the double sum of the old yaw and the
double product `(cx - previousMouseX) * 0.01`, so that the yaw changes by
exactly that product whenever the sum is computed without rounding; it stores
`cx` in `previousMouseX` and leaves the element maps of both faces as they
were. -/
theorem pointermove_rotating (s : State) (event : PointerEvent)
    (hd : s.draggedElement = none) (hr : s.isCardDragging = true) :
    (pointermove s event).rotationY
      = fadd s.rotationY (fmul (fsub event.clientX s.previousMouseX) (fl (1 / 100))) ∧
    (fadd s.rotationY (fmul (fsub event.clientX s.previousMouseX) (fl (1 / 100)))
        = s.rotationY + fmul (fsub event.clientX s.previousMouseX) (fl (1 / 100)) →
      (pointermove s event).rotationY - s.rotationY
        = fmul (fsub event.clientX s.previousMouseX) (fl (1 / 100))) ∧
    (pointermove s event).previousMouseX = event.clientX ∧
    (pointermove s event).cardElements = s.cardElements ∧
    (∀ side key, (pointermove s event).elementAt side key = s.elementAt side key) := by
  rw [pointermove_rotation s event hd hr]
  refine ⟨rfl, ?_, rfl, rfl, fun _ _ => rfl⟩
  intro h
  show fadd s.rotationY (fmul (fsub event.clientX s.previousMouseX) (fl (1 / 100)))
    - s.rotationY = _
  rw [h]
  ring

/-- Instance of C4 (amended): from yaw 0 and last x 100, a move at x 150 sets
the yaw to the double `50 * 0.01 = 0.5`, a sum without rounding, so the yaw
changes by exactly that product. -/
theorem pointermove_rotating_witness :
    (pointermove { sampleState with isCardDragging := true, previousMouseX := 100 }
        { clientX := 150, intersects := [] }).rotationY = 1 / 2 ∧
    (pointermove { sampleState with isCardDragging := true, previousMouseX := 100 }
        { clientX := 150, intersects := [] }).rotationY
      - ({ sampleState with isCardDragging := true, previousMouseX := 100 } : State).rotationY
      = fmul (fsub 150 100) (fl (1 / 100)) :=
  ⟨((pointermove_rotating { sampleState with isCardDragging := true, previousMouseX := 100 }
      { clientX := 150, intersects := [] } rfl rfl).1).trans
      (by
        show fadd sampleState.rotationY (fmul (fsub 150 100) (fl (1 / 100))) = 1 / 2
        rw [show sampleState.rotationY = 0 from rfl]
        simp only [fsub_150_100, fl_hundredth, fmul_50_hundredth, fadd_0_1o2]),
   (pointermove_rotating { sampleState with isCardDragging := true, previousMouseX := 100 }
      { clientX := 150, intersects := [] } rfl rfl).2.1
      (by
        show fadd sampleState.rotationY (fmul (fsub 150 100) (fl (1 / 100)))
          = sampleState.rotationY + fmul (fsub 150 100) (fl (1 / 100))
        rw [show sampleState.rotationY = 0 from rfl]
        simp only [fsub_150_100, fl_hundredth, fmul_50_hundredth, fadd_0_1o2]
        norm_num)⟩

/-- C6 as stated fails: after a rotation started at device x 300, a pointer-up,
a pointer-down that picks the name element and a final pointer-up, the drag
offset is still `(78, -22)` and the last pointer x is still 300; neither is
back at its initial value. -/
theorem pointerup_keeps_offset_and_lastX :
    (run sampleState
      [ Event.pointerdown { clientX := 300, intersects := [] },
        Event.pointerup,
        Event.pointerdown
          { clientX := 310, intersects := [{ faceIndex := 8, uv := { x := 1 / 8, y := 3 / 4 } }] },
        Event.pointerup ]).dragOffset = { x := 78, y := -22 } ∧
    (run sampleState
      [ Event.pointerdown { clientX := 300, intersects := [] },
        Event.pointerup,
        Event.pointerdown
          { clientX := 310, intersects := [{ faceIndex := 8, uv := { x := 1 / 8, y := 3 / 4 } }] },
        Event.pointerup ]).previousMouseX = 300 ∧
    ¬ ((run sampleState
      [ Event.pointerdown { clientX := 300, intersects := [] },
        Event.pointerup,
        Event.pointerdown
          { clientX := 310, intersects := [{ faceIndex := 8, uv := { x := 1 / 8, y := 3 / 4 } }] },
        Event.pointerup ]).dragOffset = { x := 0, y := 0 } ∨
      (run sampleState
      [ Event.pointerdown { clientX := 300, intersects := [] },
        Event.pointerup,
        Event.pointerdown
          { clientX := 310, intersects := [{ faceIndex := 8, uv := { x := 1 / 8, y := 3 / 4 } }] },
        Event.pointerup ]).previousMouseX = 0) := by
  have h : run sampleState
      [ Event.pointerdown { clientX := 300, intersects := [] },
        Event.pointerup,
        Event.pointerdown
          { clientX := 310, intersects := [{ faceIndex := 8, uv := { x := 1 / 8, y := 3 / 4 } }] },
        Event.pointerup ]
      = { sampleState with dragOffset := { x := 78, y := -22 }, previousMouseX := 300 } := by
    simp only [run, List.foldl, step]
    rw [pointerdown_of_miss sampleState { clientX := 300, intersects := [] } rfl,
      sample_pointerdown_name (pointerup (startRotation sampleState { clientX := 300, intersects := [] })) 310 rfl]
    rfl
  rw [h]
  refine ⟨rfl, rfl, ?_⟩
  simp

/-- C6, amended: from every state a pointer-up leaves no dragged element,
rotation inactive and no current canvas state, so that a following
pointer-move changes nothing; the drag offset, the last pointer x, the element
maps and the yaw are left at the values they had. -/
theorem pointerup_idle (s : State) :
    (pointerup s).draggedElement = none ∧
    (pointerup s).isCardDragging = false ∧
    (pointerup s).currentCanvasState = none ∧
    (∀ event, pointermove (pointerup s) event = pointerup s) ∧
    (pointerup s).dragOffset = s.dragOffset ∧
    (pointerup s).previousMouseX = s.previousMouseX ∧
    (pointerup s).cardElements = s.cardElements ∧
    (pointerup s).rotationY = s.rotationY := by
  simp [pointerup, pointermove]

/-! ## Exclusion of drag and rotation -/

/-- C5 at the failing input: a pointer-down that picks the name element followed
by a second pointer-down that misses the card reaches a state in which
`draggedElement` is set and `isCardDragging` is true. -/
theorem drag_and_rotation_both_active :
    Reachable (run sampleState
      [ Event.pointerdown
          { clientX := 0, intersects := [{ faceIndex := 8, uv := { x := 1 / 8, y := 3 / 4 } }] },
        Event.pointerdown { clientX := 300, intersects := [] } ]) ∧
    (run sampleState
      [ Event.pointerdown
          { clientX := 0, intersects := [{ faceIndex := 8, uv := { x := 1 / 8, y := 3 / 4 } }] },
        Event.pointerdown { clientX := 300, intersects := [] } ]).draggedElement
      = some { side := Side.front, key := "name" } ∧
    (run sampleState
      [ Event.pointerdown
          { clientX := 0, intersects := [{ faceIndex := 8, uv := { x := 1 / 8, y := 3 / 4 } }] },
        Event.pointerdown { clientX := 300, intersects := [] } ]).isCardDragging = true := by
  have h : run sampleState
      [ Event.pointerdown
          { clientX := 0, intersects := [{ faceIndex := 8, uv := { x := 1 / 8, y := 3 / 4 } }] },
        Event.pointerdown { clientX := 300, intersects := [] } ]
      = startRotation
          { sampleState with
            currentCanvasState := some Side.front
            draggedElement := some { side := Side.front, key := "name" }
            dragOffset := { x := 78, y := -22 }
            isCardDragging := false }
          { clientX := 300, intersects := [] } := by
    simp only [run, List.foldl, step]
    rw [sample_pointerdown_name sampleState 0 rfl]
    exact pointerdown_of_miss _ _ rfl
  refine ⟨⟨monoCtx, monoCtx, defaultForm, _, rfl⟩, ?_, ?_⟩
  · rw [h]; rfl
  · rw [h]; rfl

/-! ## Dragging -/

/-- C10 at the failing input: while the name element is dragged with offset
`(78, -22)`, a pointer-move whose nearest intersection is polygon 0 (a side
face, for which the pointer-down picking resolves no face) at UV `(1/2, 1/2)`
moves the element from `(50, 150)` to `(434, 278)`. -/
theorem side_face_move_updates_anchor :
    (pointerdown sampleState
      { clientX := 0, intersects := [{ faceIndex := 8, uv := { x := 1 / 8, y := 3 / 4 } }] }
      ).draggedElement = some { side := Side.front, key := "name" } ∧
    (pointerdown sampleState
      { clientX := 0, intersects := [{ faceIndex := 8, uv := { x := 1 / 8, y := 3 / 4 } }] }
      ).anchorAt Side.front "name" = some (50, 150) ∧
    pickFace [{ faceIndex := 0, uv := { x := 1 / 2, y := 1 / 2 } }] = none ∧
    (pointermove
      (pointerdown sampleState
        { clientX := 0, intersects := [{ faceIndex := 8, uv := { x := 1 / 8, y := 3 / 4 } }] })
      { clientX := 0, intersects := [{ faceIndex := 0, uv := { x := 1 / 2, y := 1 / 2 } }] }
      ).anchorAt Side.front "name" = some (434, 278) := by
  have hd : draggingState.draggedElement = some { side := Side.front, key := "name" } := by
    rw [draggingState_eq]
  have ho : draggingState.dragOffset = { x := 78, y := -22 } := by
    rw [draggingState_eq]
  refine ⟨hd, ?_, ?_, ?_⟩
  · show draggingState.anchorAt Side.front "name" = some (50, 150)
    have h := draggingState_name
    simp only [State.elementAt] at h
    simp only [State.anchorAt, anchorOf, h]
    rfl
  · simp [pickFace, sideKey]
  · have h := (pointermove_drag draggingState
      { clientX := 0, intersects := [{ faceIndex := 0, uv := { x := 1 / 2, y := 1 / 2 } }] }
      { faceIndex := 0, uv := { x := 1 / 2, y := 1 / 2 } } []
      { side := Side.front, key := "name" } nameElement hd draggingState_name rfl).1
    rw [ho] at h
    simp only [fmul_1o2_1024, fsub_1_1o2, fmul_1o2_512, fsub_512_78, fsub_256_m22] at h
    exact h

/-- C3 as stated fails: with the name element dragged at offset `(78, -22)`,
moves whose rays hit the card at UV `(0.1, 0.1)` and then `(0.3, 0.3)` put the
anchor at y 482.8 and then 380.4 (as doubles); the change of y differs from
`-(v2 - v1) * 512`, whether both sides are evaluated exactly or in doubles
(-102.40000000000003 against -102.39999999999999). -/
theorem drag_delta_rounds :
    draggingState.draggedElement = some { side := Side.front, key := "name" } ∧
    draggingState.dragOffset = { x := 78, y := -22 } ∧
    (pointermove draggingState
        { clientX := 0,
          intersects := [{ faceIndex := 8, uv := { x := fl (1 / 10), y := fl (1 / 10) } }] }
      ).anchorAt Side.front "name"
      = some (858498678967501 / 35184372088832, 8493507422244045 / 17592186044416) ∧
    (pointermove
        (pointermove draggingState
          { clientX := 0,
            intersects := [{ faceIndex := 8, uv := { x := fl (1 / 10), y := fl (1 / 10) } }] })
        { clientX := 0,
          intersects := [{ faceIndex := 8, uv := { x := fl (3 / 10), y := fl (3 / 10) } }] }
      ).anchorAt Side.front "name"
      = some (4032129041380147 / 17592186044416, 3346033785647923 / 8796093022208) ∧
    (3346033785647923 / 8796093022208 : ℚ) - (8493507422244045 / 17592186044416)
      ≠ -(fl (3 / 10) - fl (1 / 10)) * 512 ∧
    fsub (3346033785647923 / 8796093022208) (8493507422244045 / 17592186044416)
      ≠ fmul (-(fsub (fl (3 / 10)) (fl (1 / 10)))) 512 := by
  have hd : draggingState.draggedElement = some { side := Side.front, key := "name" } := by
    rw [draggingState_eq]
  have ho : draggingState.dragOffset = { x := 78, y := -22 } := by
    rw [draggingState_eq]
  obtain ⟨ha1, _, ho1, hd1, el1, hel1⟩ := pointermove_drag draggingState
    { clientX := 0,
      intersects := [{ faceIndex := 8, uv := { x := fl (1 / 10), y := fl (1 / 10) } }] }
    { faceIndex := 8, uv := { x := fl (1 / 10), y := fl (1 / 10) } } []
    { side := Side.front, key := "name" } nameElement hd draggingState_name rfl
  obtain ⟨ha2, _, _, _, _⟩ := pointermove_drag _
    { clientX := 0,
      intersects := [{ faceIndex := 8, uv := { x := fl (3 / 10), y := fl (3 / 10) } }] }
    { faceIndex := 8, uv := { x := fl (3 / 10), y := fl (3 / 10) } } []
    { side := Side.front, key := "name" } el1 hd1 hel1 rfl
  rw [ho1] at ha2
  rw [ho] at ha1 ha2
  refine ⟨hd, ho, ha1.trans (by simp only [fl_tenth, fmul_tenth_1024, fsub_cx_tenth_78, fsub_1_tenth, fmul_w_tenth_512, fsub_cy_tenth_m22]),
    ha2.trans (by simp only [fl_three_tenths, fmul_three_tenths_1024, fsub_cx_three_tenths_78, fsub_1_three_tenths, fmul_w_three_tenths_512, fsub_cy_three_tenths_m22]), ?_, ?_⟩
  · simp only [fl_tenth, fl_three_tenths]
    norm_num
  · simp only [fl_tenth, fl_three_tenths, fsub_v_v, fsub_ay_ay]
    rw [show (-((7205759403792793 / 36028797018963968) : ℚ)) = -(7205759403792793 / 36028797018963968) by norm_num]
    simp only [fmul_negdv_512]
    norm_num

/-- C3, amended: while an element is dragged, two successive pointer-moves whose
rays hit the card at UVs `(u1, v1)` and `(u2, v2)` each set the anchor of the
dragged element to `(u * 1024 - dragOffset.x, (1 - v) * 512 - dragOffset.y)`,
evaluated in doubles, for the offset recorded at drag start; when these four
coordinates carry no rounding error the anchor changes between the two moves
by exactly `((u2 - u1) * 1024, -(v2 - v1) * 512)`; the yaw, the drag offset
and the dragged element are the same after both moves. -/
theorem pointermove_dragging (s : State) (d : DraggedElement) (el : ElementData)
    (e1 e2 : PointerEvent) (i1 i2 : Intersection) (r1 r2 : List Intersection)
    (hd : s.draggedElement = some d) (hel : s.elementAt d.side d.key = some el)
    (h1 : e1.intersects = i1 :: r1) (h2 : e2.intersects = i2 :: r2) :
    (pointermove s e1).anchorAt d.side d.key
      = some (fsub (fmul i1.uv.x 1024) s.dragOffset.x,
              fsub (fmul (fsub 1 i1.uv.y) 512) s.dragOffset.y) ∧
    (pointermove (pointermove s e1) e2).anchorAt d.side d.key
      = some (fsub (fmul i2.uv.x 1024) s.dragOffset.x,
              fsub (fmul (fsub 1 i2.uv.y) 512) s.dragOffset.y) ∧
    (fsub (fmul i1.uv.x 1024) s.dragOffset.x = i1.uv.x * 1024 - s.dragOffset.x →
      fsub (fmul (fsub 1 i1.uv.y) 512) s.dragOffset.y = (1 - i1.uv.y) * 512 - s.dragOffset.y →
      fsub (fmul i2.uv.x 1024) s.dragOffset.x = i2.uv.x * 1024 - s.dragOffset.x →
      fsub (fmul (fsub 1 i2.uv.y) 512) s.dragOffset.y = (1 - i2.uv.y) * 512 - s.dragOffset.y →
      ∀ a1 a2, (pointermove s e1).anchorAt d.side d.key = some a1 →
        (pointermove (pointermove s e1) e2).anchorAt d.side d.key = some a2 →
        a2.1 - a1.1 = (i2.uv.x - i1.uv.x) * 1024 ∧
          a2.2 - a1.2 = -(i2.uv.y - i1.uv.y) * 512) ∧
    (pointermove s e1).rotationY = s.rotationY ∧
    (pointermove (pointermove s e1) e2).rotationY = s.rotationY ∧
    (pointermove (pointermove s e1) e2).dragOffset = s.dragOffset ∧
    (pointermove (pointermove s e1) e2).draggedElement = some d := by
  obtain ⟨ha1, hr1, ho1, hd1, el1, hel1⟩ := pointermove_drag s e1 i1 r1 d el hd hel h1
  obtain ⟨ha2, hr2, ho2, hd2, _⟩ := pointermove_drag (pointermove s e1) e2 i2 r2 d el1 hd1 hel1 h2
  rw [ho1] at ha2
  refine ⟨ha1, ha2, ?_, hr1, hr2.trans hr1, ho2.trans ho1, hd2⟩
  intro hx1 hy1 hx2 hy2 a1 a2 hq1 hq2
  rw [ha1] at hq1
  rw [ha2] at hq2
  cases hq1
  cases hq2
  simp only [hx1, hy1, hx2, hy2]
  constructor <;> ring

/-- Instance of C3 (amended): dragging the name element with offset
`(78, -22)`, moves at UVs `(1/4, 1/4)` and then `(3/4, 3/4)` put its anchor at
`(178, 406)` and then `(690, 150)`, without rounding, and the anchor changes by
`((3/4 - 1/4) * 1024, -(3/4 - 1/4) * 512)`. -/
theorem pointermove_dragging_witness :
    (pointermove
      (pointermove draggingState
        { clientX := 0, intersects := [{ faceIndex := 8, uv := { x := 1 / 4, y := 1 / 4 } }] })
      { clientX := 0, intersects := [{ faceIndex := 8, uv := { x := 3 / 4, y := 3 / 4 } }] }
      ).anchorAt Side.front "name" = some (690, 150) ∧
    ((690 : ℚ) - 178 = (3 / 4 - 1 / 4) * 1024 ∧ (150 : ℚ) - 406 = -(3 / 4 - 1 / 4) * 512) := by
  have hd : draggingState.draggedElement = some { side := Side.front, key := "name" } := by
    rw [draggingState_eq]
  have ho : draggingState.dragOffset = { x := 78, y := -22 } := by
    rw [draggingState_eq]
  have h := pointermove_dragging draggingState { side := Side.front, key := "name" } nameElement
    { clientX := 0, intersects := [{ faceIndex := 8, uv := { x := 1 / 4, y := 1 / 4 } }] }
    { clientX := 0, intersects := [{ faceIndex := 8, uv := { x := 3 / 4, y := 3 / 4 } }] }
    { faceIndex := 8, uv := { x := 1 / 4, y := 1 / 4 } }
    { faceIndex := 8, uv := { x := 3 / 4, y := 3 / 4 } } [] [] hd draggingState_name rfl rfl
  rw [ho] at h
  simp only [fmul_1o4_1024, fsub_1_1o4, fmul_3o4_512, fmul_3o4_1024, fsub_1_3o4, fmul_1o4_512, fsub_256_78, fsub_384_m22, fsub_768_78, fsub_128_m22] at h
  obtain ⟨ha1, ha2, hdelta, _⟩ := h
  exact ⟨ha2, hdelta (by norm_num) (by norm_num) (by norm_num) (by norm_num)
    (178, 406) (690, 150) ha1 ha2⟩

/-! ## Hit testing -/

/-- C2: for a pointer-down that hits face `side` at canvas point `(cx, cy)` and
an element map of that face (with distinct keys, as in every object), if the
element under `key` contains the point and no element after it in insertion
order does, the handler selects that element as dragged element with offset
`(cx - el.x, cy - el.y)`, and selects none of the elements declared before it,
whether or not their boxes contain the point. -/
theorem pointerdown_selects_topmost (s : State) (event : PointerEvent) (side : Side)
    (cx cy : ℚ) (before after : Elements) (key : String) (el : ElementData)
    (hp : pickFace event.intersects = some (side, cx, cy))
    (hels : (s.cardElements.get side).elements = before ++ (key, el) :: after)
    (hnodup : ((s.cardElements.get side).elements.map Prod.fst).Nodup)
    (hhit : hits (s.cardElements.get side).ctx cx cy el = true)
    (hafter : ∀ p ∈ after, hits (s.cardElements.get side).ctx cx cy p.2 = false) :
    (pointerdown s event).draggedElement = some { side := side, key := key } ∧
    (pointerdown s event).dragOffset = { x := fsub cx el.x, y := fsub cy el.y } ∧
    (pointerdown s event).isCardDragging = false ∧
    ∀ p ∈ before, (pointerdown s event).draggedElement ≠ some { side := side, key := p.1 } := by
  rw [pointerdown_of_topmost s event side cx cy before after key el hp hels hnodup hhit hafter]
  refine ⟨rfl, rfl, rfl, ?_⟩
  intro p hpb hcontra
  have hk : key = p.1 := by
    simp only [Option.some.injEq, DraggedElement.mk.injEq, true_and] at hcontra
    exact hcontra
  rw [hels] at hnodup
  simp only [List.map_append, List.map_cons] at hnodup
  have hdisj := (List.nodup_append.mp hnodup).2.2
  exact hdisj (List.mem_map_of_mem Prod.fst hpb) (by rw [hk]; exact List.mem_cons_self _ _)

/-- Instance of C2: with the title moved onto the name, a pointer-down at the
canvas point `(128, 140)`, which both boxes contain, selects the title. -/
theorem pointerdown_selects_topmost_witness :
    hits monoCtx 128 140 nameElement = true ∧
    hits monoCtx 128 140 movedTitleElement = true ∧
    (pointerdown overlapState
      { clientX := 0, intersects := [{ faceIndex := 8, uv := { x := 1 / 8, y := 93 / 128 } }] }
      ).draggedElement = some { side := Side.front, key := "title" } :=
  ⟨hits_name_128_140, hits_movedTitle_128_140,
   (pointerdown_selects_topmost overlapState
      { clientX := 0, intersects := [{ faceIndex := 8, uv := { x := 1 / 8, y := 93 / 128 } }] }
      Side.front 128 140 [("name", nameElement)] [("contact", contactElement)] "title"
      movedTitleElement (pick_overlap_point [])
      overlap_front_elements
      (by rw [overlap_front_elements]; exact front_keys_nodup _ _ _)
      (by rw [overlap_front_ctx]; exact hits_movedTitle_128_140)
      (by
        rw [overlap_front_ctx]
        intro p hp
        simp only [List.mem_singleton] at hp
        subst hp
        exact hits_contact_128_140)).1⟩

/-- C8: for an image element whose image is null, the kind dispatch of the
hit-test yields no box under any context, the hit-test loop never returns its
key, and a pointer-down never makes it the dragged element. -/
theorem null_image_never_selected (s : State) (event : PointerEvent) (side : Side)
    (key : String) (el : ElementData)
    (hel : s.elementAt side key = some el) (ht : el.text = none) (hi : el.img = some none)
    (hnd : s.draggedElement ≠ some { side := side, key := key }) :
    (∀ ctx, bboxOf el ctx = none) ∧
    (∀ ctx cx cy keys r,
      hitTest ctx (s.cardElements.get side).elements cx cy keys = some r → r.1 ≠ key) ∧
    (pointerdown s event).draggedElement ≠ some { side := side, key := key } := by
  have hb : ∀ ctx, bboxOf el ctx = none := by
    intro ctx
    simp [bboxOf, ht, hi]
  have hloop : ∀ ctx cx cy keys r,
      hitTest ctx (s.cardElements.get side).elements cx cy keys = some r → r.1 ≠ key := by
    intro ctx cx cy keys r hr hk
    obtain ⟨k, el0⟩ := r
    obtain ⟨_, hl, b, hbb, _⟩ := hitTest_some _ _ _ _ _ _ _ hr
    simp only at hk
    subst hk
    rw [State.elementAt] at hel
    rw [hel] at hl
    cases hl
    rw [hb] at hbb
    cases hbb
  refine ⟨hb, hloop, ?_⟩
  rcases pointerdown_draggedElement s event with ⟨side0, cx, cy, key0, el0, _, hh, hsel, _⟩ | ⟨hsame, _⟩
  · intro hcontra
    rw [hsel] at hcontra
    injection hcontra with h
    injection h with h1 h2
    subst h1
    exact hloop _ _ _ _ _ hh h2
  · rw [hsame]
    exact hnd

/-- Instance of C8: the logo of the sample state has a null image; a
pointer-down in the middle of its rectangle on the back face does not select
it. -/
theorem null_image_never_selected_witness :
    pickFace [{ faceIndex := 10, uv := { x := 1 / 2, y := 1 / 4 } }]
      = some (Side.back, 512, 384) ∧
    (pointerdown sampleState
      { clientX := 0, intersects := [{ faceIndex := 10, uv := { x := 1 / 2, y := 1 / 4 } }] }
      ).draggedElement ≠ some { side := Side.back, key := "logo" } :=
  ⟨pick_logo_point [],
   (null_image_never_selected sampleState
      { clientX := 0, intersects := [{ faceIndex := 10, uv := { x := 1 / 2, y := 1 / 4 } }] }
      Side.back "logo" logoElement sample_logo rfl rfl
      (by rw [show sampleState.draggedElement = none from rfl]; simp)).2.2⟩

/-- C9 at the failing input: with an empty name field the name element has text
`""`; the kind dispatch of the hit-test still yields the box `(50, 150, 0, 0)`,
and a pointer-down on the front face at canvas point `(50, 150)` makes the
element the dragged one although no element was dragged before. -/
theorem empty_text_selected_at_anchor :
    emptyNameState.elementAt Side.front "name"
      = some { text := some "", x := 50, y := 150, font := "bold 64px Arial" } ∧
    bboxOf { text := some "", x := 50, y := 150, font := "bold 64px Arial" } monoCtx
      = some { x := 50, y := 150, width := 0, height := 0 } ∧
    pickFace [{ faceIndex := 8, uv := { x := 25 / 512, y := 181 / 256 } }]
      = some (Side.front, 50, 150) ∧
    emptyNameState.draggedElement = none ∧
    (pointerdown emptyNameState
      { clientX := 0, intersects := [{ faceIndex := 8, uv := { x := 25 / 512, y := 181 / 256 } }] }
      ).draggedElement = some { side := Side.front, key := "name" } := by
  refine ⟨?_, bboxOf_emptyName, pick_anchor_point [], rfl, ?_⟩
  · show List.lookup "name" (emptyNameState.cardElements.get Side.front).elements = _
    rw [emptyName_front_elements]
    simp [List.lookup, emptyNameElement]
  · rw [emptyName_pointerdown]

end DigitalCard
